import Mathlib

/-!
Verification development for the `lora` physical-layer driver crate.

The Rust sources are embedded shallowly:

* `src/mod_params.rs` — parameter value objects and the error taxonomy
  become plain inductive types and structures.
* `src/lib.rs` — the orchestrator (`LoRa<RK>`) is a state machine over an
  abstract chip model `RadioKindModel σ` (mirroring the `RadioKind` trait
  of `src/mod_traits.rs`); each chip-trait method is an abstract state
  transformer `σ → Except RadioError α × σ`, and each orchestrator
  operation is embedded as a function returning its result, the updated
  orchestrator state, and the trace of chip-trait calls it performed, in
  order.
* `src/sx1261_2/mod.rs` and `src/sx1276_7_8_9/mod.rs` — the chip-specific
  pure logic (modulation-parameter construction, retention-list update,
  interrupt classification, receive start) is embedded directly; SPI-level
  interactions go through an abstract interface model with an event trace.

Rust `Result<T, RadioError>` becomes `Except RadioError T`; `&mut self`
methods become explicit state passing.
-/

namespace Lora

/-- Error taxonomy, from `RadioError` in `src/mod_params.rs`. -/
inductive RadioError where
  | SPI
  | NSS
  | Reset
  | RfSwitchRx
  | RfSwitchTx
  | Busy
  | Irq
  | DIO1
  | DelayError
  | OpError (status : Nat)
  | InvalidBaseAddress (txBase rxBase : Nat)
  | PayloadSizeUnexpected (size : Nat)
  | PayloadSizeMismatch (reported bufLen : Nat)
  | InvalidSymbolTimeout
  | RetentionListExceeded
  | UnavailableSpreadingFactor
  | UnavailableBandwidth
  | UnavailableCodingRate
  | InvalidBandwidthForFrequency
  | InvalidSF6ExplicitHeaderRequest
  | InvalidOutputPower
  | InvalidOutputPowerForFrequency
  | HeaderError
  | CRCErrorUnexpected
  | CRCErrorOnReceive
  | TransmitTimeout
  | ReceiveTimeout
  | TimeoutUnexpected
  | TransmitDoneUnexpected
  | ReceiveDoneUnexpected
  | DutyCycleUnsupported
  | DutyCycleRxContinuousUnsupported
  | CADUnexpected
  deriving DecidableEq, Repr

/-- Chip variants, from `RadioType` in `src/mod_params.rs`. -/
inductive RadioType where
  | SX1261 | SX1262 | STM32WLSX1262
  | SX1276 | SX1277 | SX1278 | SX1279
  deriving DecidableEq, Repr

/-- Radio operating modes, from `RadioMode` in `src/mod_params.rs`. -/
inductive RadioMode where
  | Sleep
  | Standby
  | FrequencySynthesis
  | Transmit
  | Receive
  | ReceiveDutyCycle
  | ChannelActivityDetection
  deriving DecidableEq, Repr

/-- Spreading factors, from `SpreadingFactor` in `src/mod_params.rs`. -/
inductive SpreadingFactor where
  | _5 | _6 | _7 | _8 | _9 | _10 | _11 | _12
  deriving DecidableEq, Repr

/-- Bandwidths, from `Bandwidth` in `src/mod_params.rs`. -/
inductive Bandwidth where
  | _7KHz | _10KHz | _15KHz | _20KHz | _31KHz
  | _41KHz | _62KHz | _125KHz | _250KHz | _500KHz
  deriving DecidableEq, Repr

/-- `Bandwidth::value_in_hz` from `src/mod_params.rs`. -/
def Bandwidth.valueInHz : Bandwidth → Nat
  | ._7KHz => 7810
  | ._10KHz => 10420
  | ._15KHz => 15630
  | ._20KHz => 20830
  | ._31KHz => 31250
  | ._41KHz => 41670
  | ._62KHz => 62500
  | ._125KHz => 125000
  | ._250KHz => 250000
  | ._500KHz => 500000

/-- Coding rates, from `CodingRate` in `src/mod_params.rs`. -/
inductive CodingRate where
  | _4_5 | _4_6 | _4_7 | _4_8
  deriving DecidableEq, Repr

/-- Signal-quality metadata of a received packet, from `PacketStatus` in
`src/mod_params.rs`. -/
structure PacketStatus where
  rssi : Int
  snr : Int
  deriving DecidableEq, Repr

/-- Modulation parameters, from `ModulationParams` in `src/mod_params.rs`.
`lowDataRateOptimize` carries the raw `u8` value (0 or 1) as in the source. -/
structure ModulationParams where
  spreadingFactor : SpreadingFactor
  bandwidth : Bandwidth
  codingRate : CodingRate
  lowDataRateOptimize : Nat
  frequencyInHz : Nat
  deriving DecidableEq, Repr

/-- Packet parameters, from `PacketParams` in `src/mod_params.rs`. -/
structure PacketParams where
  preambleLength : Nat
  implicitHeader : Bool
  payloadLength : Nat
  crcOn : Bool
  iqInverted : Bool
  deriving DecidableEq, Repr

/-- `PacketParams::set_payload_length` from `src/mod_params.rs`: the only
way the payload length is set; rejects sizes above 255. -/
def PacketParams.setPayloadLength (p : PacketParams) (len : Nat) :
    Except RadioError PacketParams :=
  if len > 255 then .error (.PayloadSizeUnexpected len)
  else .ok { p with payloadLength := len }

/-- Receive duty-cycle parameters, from `DutyCycleParams` in
`src/mod_params.rs`. -/
structure DutyCycleParams where
  rxTime : Nat
  sleepTime : Nat
  deriving DecidableEq, Repr

/-- Labels for the `RadioKind` trait methods (`src/mod_traits.rs`), used to
record the sequence of chip operations an orchestrator operation performs. -/
inductive ChipOp where
  | reset | ensureReady | initRfSwitch | setStandby | setSleep | setLoraModem
  | setOscillator | setRegulatorMode | setTxRxBufferBaseAddress
  | setTxPowerAndRampTime | updateRetentionList | setModulationParams
  | setPacketParams | calibrateImage | setChannel | setPayload
  | doTx | doRx | doCad | setIrqParams | processIrq
  | getRxPayload | getRxPacketStatus
  deriving DecidableEq, Repr

/-- Abstract model of the `RadioKind` trait from `src/mod_traits.rs`: every
fallible `&mut self` method becomes a state transformer on an abstract chip
state `σ`.  `setSleep` returns whether warm start is enabled, as in the
source; `processIrq` returns the final value of the by-reference
`cad_activity_detected` flag (initialized to `false` by the one caller that
passes it, `LoRa::cad`). -/
structure RadioKindModel (σ : Type) where
  getRadioType : RadioType
  reset : σ → Except RadioError Unit × σ
  ensureReady : σ → RadioMode → Except RadioError Unit × σ
  initRfSwitch : σ → Except RadioError Unit × σ
  setStandby : σ → Except RadioError Unit × σ
  setSleep : σ → Except RadioError Bool × σ
  setLoraModem : σ → Bool → Except RadioError Unit × σ
  setOscillator : σ → Except RadioError Unit × σ
  setRegulatorMode : σ → Except RadioError Unit × σ
  setTxRxBufferBaseAddress : σ → Nat → Nat → Except RadioError Unit × σ
  setTxPowerAndRampTime :
    σ → Int → Option ModulationParams → Bool → Bool → Except RadioError Unit × σ
  updateRetentionList : σ → Except RadioError Unit × σ
  setModulationParams : σ → ModulationParams → Except RadioError Unit × σ
  setPacketParams : σ → PacketParams → Except RadioError Unit × σ
  calibrateImage : σ → Nat → Except RadioError Unit × σ
  setChannel : σ → Nat → Except RadioError Unit × σ
  setPayload : σ → List Nat → Except RadioError Unit × σ
  doTx : σ → Nat → Except RadioError Unit × σ
  doRx : σ → PacketParams → Option DutyCycleParams → Bool → Bool → Nat → Nat →
    Except RadioError Unit × σ
  doCad : σ → ModulationParams → Bool → Except RadioError Unit × σ
  setIrqParams : σ → Option RadioMode → Except RadioError Unit × σ
  processIrq : σ → RadioMode → Bool → Except RadioError Bool × σ
  getRxPayload : σ → PacketParams → Nat → Except RadioError Nat × σ
  getRxPacketStatus : σ → Except RadioError PacketStatus × σ

/-- The orchestrator's own state: the fields of `LoRa<RK>` in `src/lib.rs`
(the owned chip plus the tracked mode and the two cached booleans). -/
structure LoRaState (σ : Type) where
  chip : σ
  radioMode : RadioMode
  rxContinuous : Bool
  imageCalibrated : Bool

/-- Result of running one orchestrator operation: the returned
`Result`, the final orchestrator state, and the ordered trace of
chip-trait calls performed (recorded whether or not they succeeded). -/
abbrev OrcRes (σ α : Type) := Except RadioError α × LoRaState σ × List ChipOp

/-- Sequencing combinator for the embedding: perform one already-applied
fallible call `r` (recording event `ev`), short-circuit on its error (as
Rust `?` does), and otherwise continue with `k` on the updated state.  The
event is recorded in the trace in both cases. -/
def stepCall {σ α β E : Type} (ev : E) (r : Except RadioError α × σ)
    (k : α → σ → Except RadioError β × σ × List E) :
    Except RadioError β × σ × List E :=
  match r.1 with
  | .error e => (.error e, r.2, [ev])
  | .ok a => ((k a r.2).1, (k a r.2).2.1, ev :: (k a r.2).2.2)

/-- Prefix one event onto a run's trace. -/
def withEv {σ α E : Type} (ev : E) (r : Except RadioError α × σ × List E) :
    Except RadioError α × σ × List E :=
  (r.1, r.2.1, ev :: r.2.2)

/-- Lift a chip-trait call to act on the whole orchestrator state. -/
def liftChip {σ α : Type} (f : σ → Except RadioError α × σ) (s : LoRaState σ) :
    Except RadioError α × LoRaState σ :=
  ((f s.chip).1, { s with chip := (f s.chip).2 })

@[simp] theorem liftChip_fst {σ α : Type} (f : σ → Except RadioError α × σ)
    (s : LoRaState σ) : (liftChip f s).1 = (f s.chip).1 := rfl

theorem stepCall_ok {σ α β E : Type} {ev : E} {r : Except RadioError α × σ} {a : α}
    (k : α → σ → Except RadioError β × σ × List E) (h : r.1 = .ok a) :
    stepCall ev r k = ((k a r.2).1, (k a r.2).2.1, ev :: (k a r.2).2.2) := by
  unfold stepCall
  rw [h]

theorem stepCall_err {σ α β E : Type} {ev : E} {r : Except RadioError α × σ}
    {e : RadioError} (k : α → σ → Except RadioError β × σ × List E)
    (h : r.1 = .error e) :
    stepCall ev r k = (.error e, r.2, [ev]) := by
  unfold stepCall
  rw [h]

namespace LoRa

/-- `LoRa::sleep` from `src/lib.rs`: no-op when the tracked mode is already
`Sleep`; otherwise ensure-ready, request chip sleep, invalidate the
image-calibration cache when the chip reports warm start unavailable, and
track mode `Sleep`. -/
def sleep {σ : Type} (rk : RadioKindModel σ) (s : LoRaState σ) : OrcRes σ Unit :=
  if s.radioMode ≠ RadioMode.Sleep then
    stepCall .ensureReady (liftChip (fun c => rk.ensureReady c s.radioMode) s)
      fun _ s1 =>
    stepCall .setSleep (liftChip rk.setSleep s1) fun warmStartEnabled s2 =>
    let s3 := if warmStartEnabled = false then { s2 with imageCalibrated := false } else s2
    (.ok (), { s3 with radioMode := .Sleep }, [])
  else (.ok (), s, [])

/-- `LoRa::init` from `src/lib.rs`: the full initialization sequence. -/
def init {σ : Type} (rk : RadioKindModel σ) (enablePublicNetwork : Bool)
    (s : LoRaState σ) : OrcRes σ Unit :=
  let s0 : LoRaState σ := { s with imageCalibrated := false }
  stepCall .reset (liftChip rk.reset s0) fun _ s1 =>
  stepCall .ensureReady (liftChip (fun c => rk.ensureReady c s1.radioMode) s1)
    fun _ s2 =>
  stepCall .initRfSwitch (liftChip rk.initRfSwitch s2) fun _ s3 =>
  stepCall .setStandby (liftChip rk.setStandby s3) fun _ s4 =>
  let s5 : LoRaState σ := { s4 with radioMode := .Standby, rxContinuous := false }
  stepCall .setLoraModem (liftChip (fun c => rk.setLoraModem c enablePublicNetwork) s5)
    fun _ s6 =>
  stepCall .setOscillator (liftChip rk.setOscillator s6) fun _ s7 =>
  stepCall .setRegulatorMode (liftChip rk.setRegulatorMode s7) fun _ s8 =>
  stepCall .setTxRxBufferBaseAddress
    (liftChip (fun c => rk.setTxRxBufferBaseAddress c 0 0) s8) fun _ s9 =>
  stepCall .setTxPowerAndRampTime
    (liftChip (fun c => rk.setTxPowerAndRampTime c 0 none false false) s9) fun _ s10 =>
  stepCall .setIrqParams
    (liftChip (fun c => rk.setIrqParams c (some s10.radioMode)) s10) fun _ s11 =>
  stepCall .updateRetentionList (liftChip rk.updateRetentionList s11) fun _ s12 =>
  (.ok (), s12, [])

/-- `LoRa::new` from `src/lib.rs`: build the initial state (`Sleep`, both
cached booleans false) and run `init`. -/
def new {σ : Type} (rk : RadioKindModel σ) (chip : σ) (enablePublicNetwork : Bool) :
    OrcRes σ Unit :=
  init rk enablePublicNetwork
    { chip := chip, radioMode := .Sleep, rxContinuous := false, imageCalibrated := false }

/-- `LoRa::prepare_for_tx` from `src/lib.rs`. -/
def prepareForTx {σ : Type} (rk : RadioKindModel σ) (mdltnParams : ModulationParams)
    (outputPower : Int) (txBoostedIfPossible : Bool) (s : LoRaState σ) :
    OrcRes σ Unit :=
  let s0 : LoRaState σ := { s with rxContinuous := false }
  stepCall .ensureReady (liftChip (fun c => rk.ensureReady c s0.radioMode) s0)
    fun _ s1 =>
  (if s1.radioMode ≠ RadioMode.Standby then
    stepCall .setStandby (liftChip rk.setStandby s1) fun _ s2 =>
      prepareForTxRest rk mdltnParams outputPower txBoostedIfPossible
        { s2 with radioMode := .Standby }
  else prepareForTxRest rk mdltnParams outputPower txBoostedIfPossible s1)
where
  /-- Tail of `prepare_for_tx` after the forced-standby step. -/
  prepareForTxRest (rk : RadioKindModel σ) (mdltnParams : ModulationParams)
      (outputPower : Int) (txBoostedIfPossible : Bool) (s : LoRaState σ) :
      OrcRes σ Unit :=
    stepCall .setModulationParams
      (liftChip (fun c => rk.setModulationParams c mdltnParams) s) fun _ s1 =>
    stepCall .setTxPowerAndRampTime
      (liftChip (fun c =>
        rk.setTxPowerAndRampTime c outputPower (some mdltnParams) txBoostedIfPossible true) s1)
      fun _ s2 =>
    (.ok (), s2, [])

/-- Tail of `LoRa::tx` after the forced-standby step: payload-length
bounding, packet programming, conditional image calibration, channel,
payload, transition to `Transmit`, IRQ masks, chip-level send, and the
blocking interrupt interpretation with its error-recovery path.  On an
interpreted error the recovery `ensure_ready` / `set_standby` failures
propagate via `?`, replacing the interpreted error. -/
def txRest {σ : Type} (rk : RadioKindModel σ) (mdltnParams : ModulationParams)
    (txPktParams : PacketParams) (buffer : List Nat) (timeoutInMs : Nat)
    (s : LoRaState σ) : OrcRes σ Unit :=
  match PacketParams.setPayloadLength txPktParams buffer.length with
  | .error e => (.error e, s, [])
  | .ok pkt =>
    stepCall .setPacketParams (liftChip (fun c => rk.setPacketParams c pkt) s)
      fun _ s1 =>
    (if s1.imageCalibrated = false then
      stepCall .calibrateImage
        (liftChip (fun c => rk.calibrateImage c mdltnParams.frequencyInHz) s1)
        fun _ s2 => txAfterCalibration rk mdltnParams buffer timeoutInMs
          { s2 with imageCalibrated := true }
    else txAfterCalibration rk mdltnParams buffer timeoutInMs s1)
where
  /-- Tail of `tx` after the conditional image calibration. -/
  txAfterCalibration (rk : RadioKindModel σ) (mdltnParams : ModulationParams)
      (buffer : List Nat) (timeoutInMs : Nat) (s : LoRaState σ) : OrcRes σ Unit :=
    stepCall .setChannel
      (liftChip (fun c => rk.setChannel c mdltnParams.frequencyInHz) s) fun _ s1 =>
    stepCall .setPayload (liftChip (fun c => rk.setPayload c buffer) s1) fun _ s2 =>
    let s3 : LoRaState σ := { s2 with radioMode := .Transmit }
    stepCall .setIrqParams
      (liftChip (fun c => rk.setIrqParams c (some s3.radioMode)) s3) fun _ s4 =>
    stepCall .doTx (liftChip (fun c => rk.doTx c timeoutInMs) s4) fun _ s5 =>
    let r := rk.processIrq s5.chip s5.radioMode s5.rxContinuous
    let s6 : LoRaState σ := { s5 with chip := r.2 }
    match r.1 with
    | .ok _ => (.ok (), s6, [.processIrq])
    | .error e =>
      withEv .processIrq <|
        stepCall .ensureReady (liftChip (fun c => rk.ensureReady c s6.radioMode) s6)
          fun _ s7 =>
        stepCall .setStandby (liftChip rk.setStandby s7) fun _ s8 =>
        (.error e, { s8 with radioMode := .Standby }, [])

/-- `LoRa::tx` from `src/lib.rs` (bytes modelled as `Nat`). -/
def tx {σ : Type} (rk : RadioKindModel σ) (mdltnParams : ModulationParams)
    (txPktParams : PacketParams) (buffer : List Nat) (timeoutInMs : Nat)
    (s : LoRaState σ) : OrcRes σ Unit :=
  let s0 : LoRaState σ := { s with rxContinuous := false }
  stepCall .ensureReady (liftChip (fun c => rk.ensureReady c s0.radioMode) s0)
    fun _ s1 =>
  (if s1.radioMode ≠ RadioMode.Standby then
    stepCall .setStandby (liftChip rk.setStandby s1) fun _ s2 =>
      txRest rk mdltnParams txPktParams buffer timeoutInMs
        { s2 with radioMode := .Standby }
  else txRest rk mdltnParams txPktParams buffer timeoutInMs s1)

/-- Tail of `LoRa::prepare_for_rx` after the forced-standby step. -/
def prepareForRxRest {σ : Type} (rk : RadioKindModel σ)
    (mdltnParams : ModulationParams) (rxPktParams : PacketParams)
    (dutyCycleParams : Option DutyCycleParams) (rxBoostedIfSupported : Bool)
    (symbolTimeout : Nat) (rxTimeoutInMs : Nat) (s : LoRaState σ) : OrcRes σ Unit :=
  stepCall .setModulationParams
    (liftChip (fun c => rk.setModulationParams c mdltnParams) s) fun _ s1 =>
  stepCall .setPacketParams (liftChip (fun c => rk.setPacketParams c rxPktParams) s1)
    fun _ s2 =>
  (if s2.imageCalibrated = false then
    stepCall .calibrateImage
      (liftChip (fun c => rk.calibrateImage c mdltnParams.frequencyInHz) s2)
      fun _ s3 => prepareForRxAfterCalibration rk mdltnParams rxPktParams
        dutyCycleParams rxBoostedIfSupported symbolTimeout rxTimeoutInMs
        { s3 with imageCalibrated := true }
  else prepareForRxAfterCalibration rk mdltnParams rxPktParams dutyCycleParams
    rxBoostedIfSupported symbolTimeout rxTimeoutInMs s2)
where
  /-- Tail of `prepare_for_rx` after the conditional image calibration:
  channel, target-mode selection (`ReceiveDutyCycle` when duty-cycle
  parameters are supplied, else `Receive`), IRQ masks, chip receive start. -/
  prepareForRxAfterCalibration (rk : RadioKindModel σ)
      (mdltnParams : ModulationParams) (rxPktParams : PacketParams)
      (dutyCycleParams : Option DutyCycleParams) (rxBoostedIfSupported : Bool)
      (symbolTimeout : Nat) (rxTimeoutInMs : Nat) (s : LoRaState σ) : OrcRes σ Unit :=
    stepCall .setChannel
      (liftChip (fun c => rk.setChannel c mdltnParams.frequencyInHz) s) fun _ s1 =>
    let newMode := match dutyCycleParams with
      | some _ => RadioMode.ReceiveDutyCycle
      | none => RadioMode.Receive
    let s2 : LoRaState σ := { s1 with radioMode := newMode }
    stepCall .setIrqParams
      (liftChip (fun c => rk.setIrqParams c (some s2.radioMode)) s2) fun _ s3 =>
    stepCall .doRx
      (liftChip (fun c => rk.doRx c rxPktParams dutyCycleParams s3.rxContinuous
        rxBoostedIfSupported symbolTimeout rxTimeoutInMs) s3) fun _ s4 =>
    (.ok (), s4, [])

/-- `LoRa::prepare_for_rx` from `src/lib.rs`. -/
def prepareForRx {σ : Type} (rk : RadioKindModel σ) (mdltnParams : ModulationParams)
    (rxPktParams : PacketParams) (dutyCycleParams : Option DutyCycleParams)
    (rxContinuous rxBoostedIfSupported : Bool) (symbolTimeout : Nat)
    (rxTimeoutInMs : Nat) (s : LoRaState σ) : OrcRes σ Unit :=
  let s0 : LoRaState σ := { s with rxContinuous := rxContinuous }
  stepCall .ensureReady (liftChip (fun c => rk.ensureReady c s0.radioMode) s0)
    fun _ s1 =>
  (if s1.radioMode ≠ RadioMode.Standby then
    stepCall .setStandby (liftChip rk.setStandby s1) fun _ s2 =>
      prepareForRxRest rk mdltnParams rxPktParams dutyCycleParams
        rxBoostedIfSupported symbolTimeout rxTimeoutInMs
        { s2 with radioMode := .Standby }
  else prepareForRxRest rk mdltnParams rxPktParams dutyCycleParams
    rxBoostedIfSupported symbolTimeout rxTimeoutInMs s1)

/-- `LoRa::rx` from `src/lib.rs`: interpret the pending interrupt; on
success fetch the payload (the caller's buffer enters as its length) and
the packet status; on an interpreted error, force the device back to
Standby only when continuous receive is not active, then surface the
error. -/
def rx {σ : Type} (rk : RadioKindModel σ) (rxPktParams : PacketParams)
    (receivingBufferLen : Nat) (s : LoRaState σ) : OrcRes σ (Nat × PacketStatus) :=
  let r := rk.processIrq s.chip s.radioMode s.rxContinuous
  let s0 : LoRaState σ := { s with chip := r.2 }
  match r.1 with
  | .ok _ =>
    withEv .processIrq <|
      stepCall .getRxPayload
        (liftChip (fun c => rk.getRxPayload c rxPktParams receivingBufferLen) s0)
        fun receivedLen s1 =>
      stepCall .getRxPacketStatus (liftChip rk.getRxPacketStatus s1)
        fun rxPktStatus s2 =>
      (.ok (receivedLen, rxPktStatus), s2, [])
  | .error e =>
    withEv .processIrq <|
      if s0.rxContinuous = false then
        stepCall .ensureReady (liftChip (fun c => rk.ensureReady c s0.radioMode) s0)
          fun _ s1 =>
        stepCall .setStandby (liftChip rk.setStandby s1) fun _ s2 =>
        (.error e, { s2 with radioMode := .Standby }, [])
      else (.error e, s0, [])

/-- Tail of `LoRa::prepare_for_cad` after the forced-standby step. -/
def prepareForCadRest {σ : Type} (rk : RadioKindModel σ)
    (mdltnParams : ModulationParams) (rxBoostedIfSupported : Bool)
    (s : LoRaState σ) : OrcRes σ Unit :=
  stepCall .setModulationParams
    (liftChip (fun c => rk.setModulationParams c mdltnParams) s) fun _ s1 =>
  (if s1.imageCalibrated = false then
    stepCall .calibrateImage
      (liftChip (fun c => rk.calibrateImage c mdltnParams.frequencyInHz) s1)
      fun _ s2 => prepareForCadAfterCalibration rk mdltnParams rxBoostedIfSupported
        { s2 with imageCalibrated := true }
  else prepareForCadAfterCalibration rk mdltnParams rxBoostedIfSupported s1)
where
  /-- Tail of `prepare_for_cad` after the conditional image calibration. -/
  prepareForCadAfterCalibration (rk : RadioKindModel σ)
      (mdltnParams : ModulationParams) (rxBoostedIfSupported : Bool)
      (s : LoRaState σ) : OrcRes σ Unit :=
    stepCall .setChannel
      (liftChip (fun c => rk.setChannel c mdltnParams.frequencyInHz) s) fun _ s1 =>
    let s2 : LoRaState σ := { s1 with radioMode := .ChannelActivityDetection }
    stepCall .setIrqParams
      (liftChip (fun c => rk.setIrqParams c (some s2.radioMode)) s2) fun _ s3 =>
    stepCall .doCad
      (liftChip (fun c => rk.doCad c mdltnParams rxBoostedIfSupported) s3) fun _ s4 =>
    (.ok (), s4, [])

/-- `LoRa::prepare_for_cad` from `src/lib.rs`. -/
def prepareForCad {σ : Type} (rk : RadioKindModel σ) (mdltnParams : ModulationParams)
    (rxBoostedIfSupported : Bool) (s : LoRaState σ) : OrcRes σ Unit :=
  let s0 : LoRaState σ := { s with rxContinuous := false }
  stepCall .ensureReady (liftChip (fun c => rk.ensureReady c s0.radioMode) s0)
    fun _ s1 =>
  (if s1.radioMode ≠ RadioMode.Standby then
    stepCall .setStandby (liftChip rk.setStandby s1) fun _ s2 =>
      prepareForCadRest rk mdltnParams rxBoostedIfSupported
        { s2 with radioMode := .Standby }
  else prepareForCadRest rk mdltnParams rxBoostedIfSupported s1)

/-- `LoRa::cad` from `src/lib.rs`: interpret the pending interrupt with a
channel-activity output flag (initialized `false`); on success return the
flag; on an interpreted error force the device back to Standby and
surface the error (recovery failures propagate via `?`). -/
def cad {σ : Type} (rk : RadioKindModel σ) (s : LoRaState σ) : OrcRes σ Bool :=
  let r := rk.processIrq s.chip s.radioMode s.rxContinuous
  let s0 : LoRaState σ := { s with chip := r.2 }
  match r.1 with
  | .ok cadActivityDetected => (.ok cadActivityDetected, s0, [.processIrq])
  | .error e =>
    withEv .processIrq <|
      stepCall .ensureReady (liftChip (fun c => rk.ensureReady c s0.radioMode) s0)
        fun _ s1 =>
      stepCall .setStandby (liftChip rk.setStandby s1) fun _ s2 =>
      (.error e, { s2 with radioMode := .Standby }, [])

end LoRa

/-! ### Parameter validation (modelled)

The crate's per-family `radio_kind_params` modules (referenced as
`mod radio_kind_params;` by `src/sx1261_2/mod.rs` and
`src/sx1276_7_8_9/mod.rs`) are not part of the provided sources; the
validation helpers below are modelled from the spec. -/

/-- Modelled from the spec: `spreading_factor_value` of the missing
`src/sx1261_2/radio_kind_params.rs`.  Family A supports spreading factors
5 through 12 (the spec's preamble-length floor applies to "the lowest
spreading factors", 5 and 6, of this family); the register value is the
spreading-factor number. -/
def spreadingFactorValue126 : SpreadingFactor → Except RadioError Nat
  | ._5 => .ok 5
  | ._6 => .ok 6
  | ._7 => .ok 7
  | ._8 => .ok 8
  | ._9 => .ok 9
  | ._10 => .ok 10
  | ._11 => .ok 11
  | ._12 => .ok 12

/-- Modelled from the spec: `bandwidth_value` of the missing
`src/sx1261_2/radio_kind_params.rs`; all listed bandwidths map to a
register code (SX126x datasheet encoding). -/
def bandwidthValue126 : Bandwidth → Except RadioError Nat
  | ._7KHz => .ok 0x00
  | ._10KHz => .ok 0x08
  | ._15KHz => .ok 0x01
  | ._20KHz => .ok 0x09
  | ._31KHz => .ok 0x02
  | ._41KHz => .ok 0x0A
  | ._62KHz => .ok 0x03
  | ._125KHz => .ok 0x04
  | ._250KHz => .ok 0x05
  | ._500KHz => .ok 0x06

/-- Modelled from the spec: `coding_rate_value` of the missing
`src/sx1261_2/radio_kind_params.rs`; the four coding rates map to codes
1 through 4. -/
def codingRateValue126 : CodingRate → Except RadioError Nat
  | ._4_5 => .ok 1
  | ._4_6 => .ok 2
  | ._4_7 => .ok 3
  | ._4_8 => .ok 4

/-- Modelled from the spec: `spreading_factor_value` of the missing
`src/sx1276_7_8_9/radio_kind_params.rs`.  Family B supports spreading
factors 6 through 12 (its packet-parameter construction special-cases
spreading factor 6 as its minimum); the register value is the
spreading-factor number. -/
def spreadingFactorValue127 : SpreadingFactor → Except RadioError Nat
  | ._5 => .error .UnavailableSpreadingFactor
  | ._6 => .ok 6
  | ._7 => .ok 7
  | ._8 => .ok 8
  | ._9 => .ok 9
  | ._10 => .ok 10
  | ._11 => .ok 11
  | ._12 => .ok 12

/-- Modelled from the spec: `bandwidth_value` of the missing
`src/sx1276_7_8_9/radio_kind_params.rs`; the ten bandwidths map to the
SX127x register codes 0 through 9. -/
def bandwidthValue127 : Bandwidth → Except RadioError Nat
  | ._7KHz => .ok 0
  | ._10KHz => .ok 1
  | ._15KHz => .ok 2
  | ._20KHz => .ok 3
  | ._31KHz => .ok 4
  | ._41KHz => .ok 5
  | ._62KHz => .ok 6
  | ._125KHz => .ok 7
  | ._250KHz => .ok 8
  | ._500KHz => .ok 9

/-- Modelled from the spec: `coding_rate_denominator_value` of the missing
`src/sx1276_7_8_9/radio_kind_params.rs`; the four coding rates map to
denominators 5 through 8. -/
def codingRateDenominatorValue127 : CodingRate → Except RadioError Nat
  | ._4_5 => .ok 5
  | ._4_6 => .ok 6
  | ._4_7 => .ok 7
  | ._4_8 => .ok 8

/-- `ModulationParams::new_for_sx1261_2` from `src/sx1261_2/mod.rs`:
validate the three parameters, reject 250/500 kHz bandwidths below
400 MHz, and derive the low-data-rate-optimize flag from the documented
(spreading factor, bandwidth) combinations. -/
def ModulationParams.newForSx1261_2 (spreadingFactor : SpreadingFactor)
    (bandwidth : Bandwidth) (codingRate : CodingRate) (frequencyInHz : Nat) :
    Except RadioError ModulationParams :=
  match spreadingFactorValue126 spreadingFactor with
  | .error e => .error e
  | .ok _ =>
  match bandwidthValue126 bandwidth with
  | .error e => .error e
  | .ok _ =>
  match codingRateValue126 codingRate with
  | .error e => .error e
  | .ok _ =>
  if (bandwidth = ._250KHz ∨ bandwidth = ._500KHz) ∧ frequencyInHz < 400000000 then
    .error .InvalidBandwidthForFrequency
  else
    let lowDataRateOptimize :=
      if ((spreadingFactor = ._11 ∨ spreadingFactor = ._12) ∧ bandwidth = ._125KHz)
          ∨ (spreadingFactor = ._12 ∧ bandwidth = ._250KHz) then (1 : Nat) else 0
    .ok { spreadingFactor := spreadingFactor, bandwidth := bandwidth,
          codingRate := codingRate, lowDataRateOptimize := lowDataRateOptimize,
          frequencyInHz := frequencyInHz }

/-- The symbol duration in milliseconds computed by family B's
modulation-parameter construction (`src/sx1276_7_8_9/mod.rs`, sections
4.1.1.5/4.1.1.6 comment): `1000 / (bw_in_hz / (1 << sf_value))` in `u32`
integer arithmetic. -/
def symbolDurationMs (sfVal : Nat) (bandwidth : Bandwidth) : Nat :=
  1000 / (bandwidth.valueInHz / (1 <<< sfVal))

/-- `ModulationParams::new_for_sx1276_7_8_9` from `src/sx1276_7_8_9/mod.rs`:
validate the three parameters, reject 250/500 kHz bandwidths below
400 MHz, and derive the low-data-rate-optimize flag from the computed
symbol duration exceeding 16 ms. -/
def ModulationParams.newForSx1276_7_8_9 (spreadingFactor : SpreadingFactor)
    (bandwidth : Bandwidth) (codingRate : CodingRate) (frequencyInHz : Nat) :
    Except RadioError ModulationParams :=
  match spreadingFactorValue127 spreadingFactor with
  | .error e => .error e
  | .ok _ =>
  match bandwidthValue127 bandwidth with
  | .error e => .error e
  | .ok _ =>
  match codingRateDenominatorValue127 codingRate with
  | .error e => .error e
  | .ok _ =>
  if (bandwidth = ._250KHz ∨ bandwidth = ._500KHz) ∧ frequencyInHz < 400000000 then
    .error .InvalidBandwidthForFrequency
  else
    match spreadingFactorValue127 spreadingFactor with
    | .error e => .error e
    | .ok sfVal =>
      let lowDataRateOptimize :=
        if symbolDurationMs sfVal bandwidth > 16 then (1 : Nat) else 0
      .ok { spreadingFactor := spreadingFactor, bandwidth := bandwidth,
            codingRate := codingRate, lowDataRateOptimize := lowDataRateOptimize,
            frequencyInHz := frequencyInHz }

/-! ### SPI-interface level embedding

`SpiInterface` (`src/interface.rs`) and the board lines are abstracted as
state transformers; each chip-family function embedded from
`src/sx1261_2/mod.rs` / `src/sx1276_7_8_9/mod.rs` records the interface
interactions it performs as an ordered event trace. -/

/-- One interface/board interaction, as issued by the protocol encoders:
a framed write of command buffers, a framed read, or an RF-switch/board
call. -/
inductive IntfEvent where
  | write (bufs : List (List Nat)) (isSleepCommand : Bool)
  | read (bufs : List (List Nat)) (len : Nat) (explicitLen : Option Nat)
  | enableRfSwitchRx
  | enableRfSwitchTx
  | disableRfSwitch
  deriving DecidableEq, Repr

/-- Abstract model of `SpiInterface` plus the board lines used by the
embedded chip-family functions: `write`/`read` from `src/interface.rs`
(read takes the command buffers, the destination-buffer length and the
optional explicit read length, returning the bytes read), and the
RF-switch calls from `InterfaceVariant` (`src/interface.rs`). -/
structure IntfModel (σ : Type) where
  write : σ → List (List Nat) → Bool → Except RadioError Unit × σ
  read : σ → List (List Nat) → Nat → Option Nat → Except RadioError (List Nat) × σ
  enableRfSwitchRx : σ → Except RadioError Unit × σ
  enableRfSwitchTx : σ → Except RadioError Unit × σ
  disableRfSwitch : σ → Except RadioError Unit × σ

/-- Sequence a completed sub-run before a continuation, concatenating the
event traces (Rust `?` on a helper returning `Result`). -/
def seqRun {σ α β E : Type} (r : Except RadioError α × σ × List E)
    (k : α → σ → Except RadioError β × σ × List E) :
    Except RadioError β × σ × List E :=
  match r.1 with
  | .error e => (.error e, r.2.1, r.2.2)
  | .ok a => ((k a r.2.1).1, (k a r.2.1).2.1, r.2.2 ++ (k a r.2.1).2.2)

/-- Modelled from the spec: opcode byte of `OpCode::ReadRegister` from the
missing `src/sx1261_2/radio_kind_params.rs` (SX126x datasheet value). -/
def opReadRegister : Nat := 0x1D

/-- Modelled from the spec: opcode byte of `OpCode::WriteRegister` from the
missing `src/sx1261_2/radio_kind_params.rs` (SX126x datasheet value). -/
def opWriteRegister : Nat := 0x0D

/-- Modelled from the spec: opcode byte of `OpCode::SetStopRxTimerOnPreamble`
from the missing `src/sx1261_2/radio_kind_params.rs`. -/
def opSetStopRxTimerOnPreamble : Nat := 0x9F

/-- Modelled from the spec: opcode byte of `OpCode::SetLoRaSymbTimeout`
from the missing `src/sx1261_2/radio_kind_params.rs`. -/
def opSetLoRaSymbTimeout : Nat := 0xA0

/-- Modelled from the spec: opcode byte of `OpCode::SetRx` from the missing
`src/sx1261_2/radio_kind_params.rs`. -/
def opSetRx : Nat := 0x82

/-- Modelled from the spec: opcode byte of `OpCode::SetRxDutyCycle` from the
missing `src/sx1261_2/radio_kind_params.rs`. -/
def opSetRxDutyCycle : Nat := 0x94

/-- A two-byte SX126x register address (`Register::addr1`/`addr2` of the
missing `src/sx1261_2/radio_kind_params.rs`). -/
structure Reg126 where
  addr1 : Nat
  addr2 : Nat
  deriving DecidableEq, Repr

/-- Modelled from the spec: address of `Register::RetentionList` from the
missing `src/sx1261_2/radio_kind_params.rs` (SX126x datasheet 0x029F). -/
def regRetentionList : Reg126 := ⟨0x02, 0x9F⟩

/-- Modelled from the spec: address of `Register::SynchTimeout` from the
missing `src/sx1261_2/radio_kind_params.rs` (SX126x datasheet 0x0706). -/
def regSynchTimeout : Reg126 := ⟨0x07, 0x06⟩

/-- Modelled from the spec: address of `Register::IQPolarity` from the
missing `src/sx1261_2/radio_kind_params.rs` (SX126x datasheet 0x0736). -/
def regIQPolarity : Reg126 := ⟨0x07, 0x36⟩

/-- Modelled from the spec: address of `Register::RxGain` from the missing
`src/sx1261_2/radio_kind_params.rs` (SX126x datasheet 0x08AC). -/
def regRxGain : Reg126 := ⟨0x08, 0xAC⟩

/-- `MAX_NUMBER_REGS_IN_RETENTION` from `src/sx1261_2/mod.rs`. -/
def maxNumberRegsInRetention : Nat := 4

/-- The search loop of `SX1261_2::add_register_to_retention_list`
(`src/sx1261_2/mod.rs`): whether `reg`'s address pair occurs among the
first `n` two-byte entries of the retention-list buffer. -/
def regInRetention (buffer : List Nat) (reg : Reg126) : Nat → Bool
  | 0 => false
  | n + 1 =>
    regInRetention buffer reg n ||
      (buffer.getD (1 + 2 * n) 0 == reg.addr1 && buffer.getD (2 + 2 * n) 0 == reg.addr2)

/-- The decision core of `SX1261_2::add_register_to_retention_list`
(`src/sx1261_2/mod.rs`), applied to the 9-byte buffer read back from the
chip: `.ok none` when the register is already present (no write),
`.ok (some b)` when a slot is free (`b` is the buffer written back with
the count bumped and the address appended), and `RetentionListExceeded`
when all `maxNumberRegsInRetention` slots are taken (no write). -/
def retentionDecision (buffer : List Nat) (reg : Reg126) :
    Except RadioError (Option (List Nat)) :=
  let numberOfRegisters := buffer.getD 0 0
  if regInRetention buffer reg numberOfRegisters then .ok none
  else if numberOfRegisters < maxNumberRegsInRetention then
    .ok (some (((buffer.set 0 (numberOfRegisters + 1)).set
      (1 + 2 * numberOfRegisters) reg.addr1).set
      (2 + 2 * numberOfRegisters) reg.addr2))
  else .error .RetentionListExceeded

/-- `SX1261_2::add_register_to_retention_list` from `src/sx1261_2/mod.rs`:
read the retention-list buffer, then either return `Ok` without a write
(register already present), write the extended buffer back, or fail with
`RetentionListExceeded` without a write. -/
def addRegisterToRetentionList126 {σ : Type} (intf : IntfModel σ) (reg : Reg126)
    (c : σ) : Except RadioError Unit × σ × List IntfEvent :=
  let readCmd := [[opReadRegister, regRetentionList.addr1, regRetentionList.addr2, 0x00]]
  stepCall (.read readCmd 9 none) (intf.read c readCmd 9 none) fun buffer c1 =>
  match retentionDecision buffer reg with
  | .ok none => (.ok (), c1, [])
  | .ok (some newBuffer) =>
    let regHeader := [opWriteRegister, regRetentionList.addr1, regRetentionList.addr2]
    stepCall (.write [regHeader, newBuffer] false)
      (intf.write c1 [regHeader, newBuffer] false) fun _ c2 => (.ok (), c2, [])
  | .error e => (.error e, c1, [])

/-- The mantissa/exponent normalization loop of
`SX1261_2::set_lora_symbol_num_timeout` (`src/sx1261_2/mod.rs`): while the
mantissa exceeds 31, replace it by `(mant + 3) >> 2` and bump the
exponent. -/
def symbTimeoutMantExp (mant exp : Nat) : Nat × Nat :=
  if mant > 31 then symbTimeoutMantExp ((mant + 3) / 4) (exp + 1) else (mant, exp)
termination_by mant
decreasing_by
  rename_i h
  simp only [gt_iff_lt] at h
  have h4 : (0 : Nat) < 4 := by norm_num
  rw [Nat.div_lt_iff_lt_mul h4]
  omega

/-- `SX1261_2::set_lora_symbol_num_timeout` from `src/sx1261_2/mod.rs`:
cap the symbol count at 248, encode it as mantissa/exponent, write the
`SetLoRaSymbTimeout` command, and perform the secondary raw register
write only when the requested timeout is nonzero (`u8` arithmetic is
reduced modulo 256). -/
def setLoraSymbolNumTimeout126 {σ : Type} (intf : IntfModel σ) (symbolNum : Nat)
    (c : σ) : Except RadioError Unit × σ × List IntfEvent :=
  let me := symbTimeoutMantExp ((min symbolNum 248 + 1) / 2) 0
  let mant := me.1
  let exp := me.2
  let reg := (mant <<< (2 * exp + 1)) % 256
  stepCall (.write [[opSetLoRaSymbTimeout, reg]] false)
    (intf.write c [[opSetLoRaSymbTimeout, reg]] false) fun _ c1 =>
  if symbolNum ≠ 0 then
    let reg2 := (exp + (mant <<< 3)) % 256
    let cmd := [[opWriteRegister, regSynchTimeout.addr1, regSynchTimeout.addr2, reg2]]
    stepCall (.write cmd false) (intf.write c1 cmd false) fun _ c2 => (.ok (), c2, [])
  else (.ok (), c1, [])

/-- `SX1261_2::timeout_1`..`timeout_3` from `src/sx1261_2/mod.rs`. -/
def timeoutByte1 (t : Nat) : Nat := (t >>> 16) &&& 0xFF

/-- Second timeout byte (see `timeoutByte1`). -/
def timeoutByte2 (t : Nat) : Nat := (t >>> 8) &&& 0xFF

/-- Third timeout byte (see `timeoutByte1`). -/
def timeoutByte3 (t : Nat) : Nat := t &&& 0xFF

/-- Tail of `SX1261_2::do_rx` after the duty-cycle/continuous check, with
the symbol timeout as adjusted by that check. -/
def doRx126AfterDutyCheck {σ : Type} (intf : IntfModel σ)
    (rxPktParams : PacketParams) (dutyCycleParams : Option DutyCycleParams)
    (rxContinuous rxBoostedIfSupported : Bool) (symbolTimeout1 : Nat)
    (rxTimeoutInMs1 : Nat) (c : σ) : Except RadioError Unit × σ × List IntfEvent :=
  stepCall .enableRfSwitchRx (intf.enableRfSwitchRx c) fun _ c1 =>
  let symbolTimeoutFinal := if rxContinuous then 0 else symbolTimeout1
  let rxTimeoutInMsFinal := if rxContinuous then 0xffffff else rxTimeoutInMs1
  let rxGainFinal : Nat := if rxBoostedIfSupported then 0x96 else 0x94
  let stopCmd := [[opSetStopRxTimerOnPreamble, 0x00]]
  stepCall (.write stopCmd false) (intf.write c1 stopCmd false) fun _ c2 =>
  seqRun (setLoraSymbolNumTimeout126 intf symbolTimeoutFinal c2) fun _ c3 =>
  let iqReadCmd := [[opReadRegister, regIQPolarity.addr1, regIQPolarity.addr2, 0x00]]
  stepCall (.read iqReadCmd 1 none) (intf.read c3 iqReadCmd 1 none) fun iqPolarity c4 =>
  let iq0 := iqPolarity.getD 0 0
  let iqNew := if rxPktParams.iqInverted then iq0 &&& 0xFB else iq0 ||| 0x04
  let iqWriteCmd := [[opWriteRegister, regIQPolarity.addr1, regIQPolarity.addr2, iqNew]]
  stepCall (.write iqWriteCmd false) (intf.write c4 iqWriteCmd false) fun _ c5 =>
  let gainCmd := [[opWriteRegister, regRxGain.addr1, regRxGain.addr2, rxGainFinal]]
  stepCall (.write gainCmd false) (intf.write c5 gainCmd false) fun _ c6 =>
  match dutyCycleParams with
  | some dutyCycle =>
    let dcCmd := [[opSetRxDutyCycle,
      timeoutByte1 dutyCycle.rxTime, timeoutByte2 dutyCycle.rxTime,
      timeoutByte3 dutyCycle.rxTime,
      timeoutByte1 dutyCycle.sleepTime, timeoutByte2 dutyCycle.sleepTime,
      timeoutByte3 dutyCycle.sleepTime]]
    stepCall (.write dcCmd false) (intf.write c6 dcCmd false) fun _ c7 =>
      (.ok (), c7, [])
  | none =>
    let rxCmd := [[opSetRx, timeoutByte1 rxTimeoutInMsFinal,
      timeoutByte2 rxTimeoutInMsFinal, timeoutByte3 rxTimeoutInMsFinal]]
    stepCall (.write rxCmd false) (intf.write c6 rxCmd false) fun _ c7 =>
      (.ok (), c7, [])

/-- `SX1261_2::do_rx` from `src/sx1261_2/mod.rs`: the duty-cycle check
comes first — duty-cycle together with continuous receive is rejected
before any interface interaction, and duty-cycle without continuous
receive forces the symbol timeout to 0 (`rx_timeout_in_ms << 6` is `u32`
arithmetic, reduced modulo 2^32). -/
def doRx126 {σ : Type} (intf : IntfModel σ) (rxPktParams : PacketParams)
    (dutyCycleParams : Option DutyCycleParams)
    (rxContinuous rxBoostedIfSupported : Bool) (symbolTimeout : Nat)
    (rxTimeoutInMs : Nat) (c : σ) : Except RadioError Unit × σ × List IntfEvent :=
  let rxTimeoutInMs1 := (rxTimeoutInMs <<< 6) % 2 ^ 32
  match dutyCycleParams with
  | some _ =>
    if rxContinuous then (.error .DutyCycleRxContinuousUnsupported, c, [])
    else doRx126AfterDutyCheck intf rxPktParams dutyCycleParams rxContinuous
      rxBoostedIfSupported 0 rxTimeoutInMs1 c
  | none => doRx126AfterDutyCheck intf rxPktParams dutyCycleParams rxContinuous
      rxBoostedIfSupported symbolTimeout rxTimeoutInMs1 c

/-- Modelled from the spec: the SX127x `Register::RegOpMode` write address
(register 0x01 with the write bit set) from the missing
`src/sx1276_7_8_9/radio_kind_params.rs`. -/
def reg127OpModeWriteAddr : Nat := 0x81

/-- Modelled from the spec: `LoRaMode::Sleep.value()` for the SX127x (LoRa
mode bit plus sleep mode) from the missing
`src/sx1276_7_8_9/radio_kind_params.rs`. -/
def loraMode127SleepValue : Nat := 0x80

/-- `SX1276_7_8_9::set_sleep` from `src/sx1276_7_8_9/mod.rs`: disable the
RF switch, write the sleep op-mode as a sleep transaction, and return
`false` — warm start is unavailable for this family. -/
def sx1276789SetSleep {σ : Type} (intf : IntfModel σ) (c : σ) :
    Except RadioError Bool × σ × List IntfEvent :=
  stepCall .disableRfSwitch (intf.disableRfSwitch c) fun _ c1 =>
  let cmd := [[reg127OpModeWriteAddr, loraMode127SleepValue]]
  stepCall (.write cmd true) (intf.write c1 cmd true) fun _ c2 =>
  (.ok false, c2, [])

/-! ### Interrupt classification -/

/-- The SX126x interrupt-flag bitmap (`IrqFlags` of the missing
`src/sx1261_2/radio_kind_params.rs`), represented as one boolean per named
flag; `contains` of the bitflags type becomes field lookup. -/
structure IrqFlags126 where
  txDone : Bool := false
  rxDone : Bool := false
  preambleDetected : Bool := false
  syncwordValid : Bool := false
  headerValid : Bool := false
  headerError : Bool := false
  crcError : Bool := false
  cadDone : Bool := false
  cadActivityDetected : Bool := false
  rxTxTimeout : Bool := false
  deriving DecidableEq, Repr

/-- The SX127x interrupt-flag bitmap (`IrqFlags` of the missing
`src/sx1276_7_8_9/radio_kind_params.rs`), represented as one boolean per
named flag used by `process_irq`. -/
structure IrqFlags127 where
  txDone : Bool := false
  rxDone : Bool := false
  headerValid : Bool := false
  crcError : Bool := false
  rxTimeout : Bool := false
  cadDone : Bool := false
  cadActivityDetected : Bool := false
  deriving DecidableEq, Repr

/-- Outcome of one classification of a read-and-cleared interrupt-flag set
by `process_irq`: return an error to the caller, return success (with the
value the CAD output flag was set to, `false` when the matched arm does
not touch it), or loop to wait for the next interrupt. -/
inductive IrqDecision where
  | fail (e : RadioError)
  | succeed (cadActivityDetected : Bool)
  | wait
  deriving DecidableEq, Repr

/-- The classification (`return match`) of `SX1261_2::process_irq` from
`src/sx1261_2/mod.rs`, arms in source order: header/CRC errors, timeouts
disambiguated by mode, mode-inconsistent completion flags, then the
HeaderValid / PreambleDetected / SyncwordValid arms (which return
success), the completion arms, and a final catch-all that loops. -/
def classify126 (f : IrqFlags126) (radioMode : RadioMode) : IrqDecision :=
  if f.headerError then .fail .HeaderError
  else if f.crcError then
    if radioMode = .Receive || radioMode = .ReceiveDutyCycle then
      .fail .CRCErrorOnReceive
    else .fail .CRCErrorUnexpected
  else if f.rxTxTimeout then
    if radioMode = .Transmit then .fail .TransmitTimeout
    else if radioMode = .Receive || radioMode = .ReceiveDutyCycle then
      .fail .ReceiveTimeout
    else .fail .TimeoutUnexpected
  else if f.txDone && !(radioMode = .Transmit) then .fail .TransmitDoneUnexpected
  else if f.rxDone && !(radioMode = .Receive || radioMode = .ReceiveDutyCycle) then
    .fail .ReceiveDoneUnexpected
  else if (f.cadActivityDetected || f.cadDone) &&
      !(radioMode = .ChannelActivityDetection) then .fail .CADUnexpected
  else if f.headerValid then .succeed false
  else if f.preambleDetected then .succeed false
  else if f.syncwordValid then .succeed false
  else if f.txDone then .succeed false
  else if f.rxDone then .succeed false
  else if f.cadDone then .succeed f.cadActivityDetected
  else .wait

/-- The classification (`return match`) of `SX1276_7_8_9::process_irq` from
`src/sx1276_7_8_9/mod.rs`, arms in source order; the HeaderValid arm and
the catch-all both loop to wait again. -/
def classify127 (f : IrqFlags127) (radioMode : RadioMode) : IrqDecision :=
  if f.crcError then
    if radioMode = .Receive then .fail .CRCErrorOnReceive
    else .fail .CRCErrorUnexpected
  else if f.rxTimeout then
    if radioMode = .Receive then .fail .ReceiveTimeout
    else .fail .TimeoutUnexpected
  else if f.txDone && !(radioMode = .Transmit) then .fail .TransmitDoneUnexpected
  else if f.rxDone && !(radioMode = .Receive) then .fail .ReceiveDoneUnexpected
  else if (f.cadActivityDetected || f.cadDone) &&
      !(radioMode = .ChannelActivityDetection) then .fail .CADUnexpected
  else if f.txDone then .succeed false
  else if f.rxDone then .succeed false
  else if f.cadDone then .succeed f.cadActivityDetected
  else if f.headerValid then .wait
  else .wait

/-- The wait loop of `SX1261_2::process_irq`, run against the sequence of
interrupt-flag sets the chip reports on successive polls (interface reads
assumed successful): `none` means every poll was classified as
"keep waiting" and the loop is still blocked. -/
def processIrqLoop126 (radioMode : RadioMode) :
    List IrqFlags126 → Option IrqDecision
  | [] => none
  | f :: rest =>
    match classify126 f radioMode with
    | .wait => processIrqLoop126 radioMode rest
    | d => some d

/-- The wait loop of `SX1276_7_8_9::process_irq` (see
`processIrqLoop126`). -/
def processIrqLoop127 (radioMode : RadioMode) :
    List IrqFlags127 → Option IrqDecision
  | [] => none
  | f :: rest =>
    match classify127 f radioMode with
    | .wait => processIrqLoop127 radioMode rest
    | d => some d

/-! ### Concrete fake chips for scenario runs -/

/-- A fake chip (trivial chip state) on which every operation succeeds and
whose interrupt interpretation reports completion on the first poll. -/
def okChip : RadioKindModel Unit where
  getRadioType := .SX1262
  reset := fun c => (.ok (), c)
  ensureReady := fun c _ => (.ok (), c)
  initRfSwitch := fun c => (.ok (), c)
  setStandby := fun c => (.ok (), c)
  setSleep := fun c => (.ok true, c)
  setLoraModem := fun c _ => (.ok (), c)
  setOscillator := fun c => (.ok (), c)
  setRegulatorMode := fun c => (.ok (), c)
  setTxRxBufferBaseAddress := fun c _ _ => (.ok (), c)
  setTxPowerAndRampTime := fun c _ _ _ _ => (.ok (), c)
  updateRetentionList := fun c => (.ok (), c)
  setModulationParams := fun c _ => (.ok (), c)
  setPacketParams := fun c _ => (.ok (), c)
  calibrateImage := fun c _ => (.ok (), c)
  setChannel := fun c _ => (.ok (), c)
  setPayload := fun c _ => (.ok (), c)
  doTx := fun c _ => (.ok (), c)
  doRx := fun c _ _ _ _ _ _ => (.ok (), c)
  doCad := fun c _ _ => (.ok (), c)
  setIrqParams := fun c _ => (.ok (), c)
  processIrq := fun c _ _ => (.ok false, c)
  getRxPayload := fun c _ _ => (.ok 0, c)
  getRxPacketStatus := fun c => (.ok ⟨0, 0⟩, c)

/-- `okChip` except that interrupt interpretation reports a CRC error. -/
def crcErrChip : RadioKindModel Unit :=
  { okChip with processIrq := fun c _ _ => (.error .CRCErrorOnReceive, c) }

/-- `okChip` except that interrupt interpretation reports an error and
`ensure_ready` fails for every mode other than Standby (so the
error-recovery path's own `ensure_ready` fails). -/
def readyFailChip : RadioKindModel Unit :=
  { okChip with
    ensureReady := fun c m => if m = .Standby then (.ok (), c) else (.error .Busy, c),
    processIrq := fun c _ _ => (.error .CRCErrorUnexpected, c) }

/-- `okChip` except that interrupt interpretation reports an error and
`set_standby` fails (so the error-recovery path's `set_standby` fails). -/
def standbyFailChip : RadioKindModel Unit :=
  { okChip with
    setStandby := fun c => (.error .NSS, c),
    processIrq := fun c _ _ => (.error .CRCErrorUnexpected, c) }

/-- `okChip` except that `set_sleep` reports warm start unavailable, as
family B's `set_sleep` always does. -/
def noWarmStartChip : RadioKindModel Unit :=
  { okChip with setSleep := fun c => (.ok false, c) }

/-- A fake SPI interface (trivial state) on which every interaction
succeeds; reads return zero-filled buffers. -/
def okIntf : IntfModel Unit where
  write := fun c _ _ => (.ok (), c)
  read := fun c _ len _ => (.ok (List.replicate len 0), c)
  enableRfSwitchRx := fun c => (.ok (), c)
  enableRfSwitchTx := fun c => (.ok (), c)
  disableRfSwitch := fun c => (.ok (), c)

/-- `okIntf` whose reads return a retention-list buffer holding two
registers, `(1,2)` and `(3,4)`. -/
def presentIntf : IntfModel Unit :=
  { okIntf with read := fun c _ _ _ => (.ok [2, 1, 2, 3, 4, 0, 0, 0, 0], c) }

/-- `okIntf` whose reads return a retention-list buffer already holding
four registers. -/
def fullIntf : IntfModel Unit :=
  { okIntf with read := fun c _ _ _ => (.ok [4, 1, 2, 3, 4, 5, 6, 7, 8], c) }

/-- Modulation parameters used by the concrete scenario runs (the record
is built directly; construction is studied separately). -/
def scenarioMp : ModulationParams :=
  { spreadingFactor := ._10, bandwidth := ._125KHz, codingRate := ._4_5,
    lowDataRateOptimize := 0, frequencyInHz := 915000000 }

/-- Modulation parameters at a second, distinct frequency. -/
def scenarioMp2 : ModulationParams :=
  { scenarioMp with frequencyInHz := 868000000 }

/-- Packet parameters used by the concrete scenario runs. -/
def scenarioPkt : PacketParams :=
  { preambleLength := 8, implicitHeader := false, payloadLength := 0,
    crcOn := true, iqInverted := false }

/-- The spec's successful-send scenario on `okChip`: initialize with
public-network=true (`LoRa::new`), then `prepare_for_tx`, then `tx` with a
64-byte payload and a 1000 ms timeout; `c1TxRun` is the final `tx` call's
outcome. -/
def c1TxRun : OrcRes Unit Unit :=
  LoRa.tx okChip scenarioMp scenarioPkt (List.replicate 64 0) 1000
    (LoRa.prepareForTx okChip scenarioMp 14 false
      (LoRa.new okChip () true).2.1).2.1

/-- A send at one frequency followed by a receive preparation at a second,
distinct frequency, on `okChip`, starting from the initialized state:
used to examine which of the two operations performs image calibration. -/
def c3SecondPrepRun : OrcRes Unit Unit :=
  LoRa.prepareForRx okChip scenarioMp2 scenarioPkt none false false 5 1000
    c1TxRun.2.1

/-! ## Helper lemmas -/

theorem spreadingFactorValue126_ok (sf : SpreadingFactor) :
    ∃ v, spreadingFactorValue126 sf = .ok v := by
  cases sf <;> exact ⟨_, rfl⟩

theorem bandwidthValue126_ok (bw : Bandwidth) :
    ∃ v, bandwidthValue126 bw = .ok v := by
  cases bw <;> exact ⟨_, rfl⟩

theorem codingRateValue126_ok (cr : CodingRate) :
    ∃ v, codingRateValue126 cr = .ok v := by
  cases cr <;> exact ⟨_, rfl⟩

theorem bandwidthValue127_ok (bw : Bandwidth) :
    ∃ v, bandwidthValue127 bw = .ok v := by
  cases bw <;> exact ⟨_, rfl⟩

theorem codingRateDenominatorValue127_ok (cr : CodingRate) :
    ∃ v, codingRateDenominatorValue127 cr = .ok v := by
  cases cr <;> exact ⟨_, rfl⟩

/-- Full run of `tx` when every chip operation succeeds and interrupt
interpretation reports completion: the result is `Ok`, the tracked mode
ends at `Transmit`, the calibration cache ends set, and `calibrate_image`
is called exactly once when the cache was invalid and never otherwise. -/
theorem tx_success_run {σ : Type} (rk : RadioKindModel σ) (mp : ModulationParams)
    (pkt : PacketParams) (buffer : List Nat) (t : Nat) (s : LoRaState σ)
    (hER : ∀ c m, (rk.ensureReady c m).1 = .ok ())
    (hSS : ∀ c, (rk.setStandby c).1 = .ok ())
    (hbl : buffer.length ≤ 255)
    (hSPP : ∀ c p, (rk.setPacketParams c p).1 = .ok ())
    (hCI : ∀ c f, (rk.calibrateImage c f).1 = .ok ())
    (hSC : ∀ c f, (rk.setChannel c f).1 = .ok ())
    (hSP : ∀ c b, (rk.setPayload c b).1 = .ok ())
    (hIP : ∀ c m, (rk.setIrqParams c m).1 = .ok ())
    (hDT : ∀ c tt, (rk.doTx c tt).1 = .ok ())
    (hPI : ∀ c, (rk.processIrq c .Transmit false).1 = .ok false) :
    (LoRa.tx rk mp pkt buffer t s).1 = .ok () ∧
    (LoRa.tx rk mp pkt buffer t s).2.1.radioMode = .Transmit ∧
    (LoRa.tx rk mp pkt buffer t s).2.1.imageCalibrated = true ∧
    ((LoRa.tx rk mp pkt buffer t s).2.2.count .calibrateImage =
      if s.imageCalibrated = false then 1 else 0) := by
  have hbl' : ¬ (buffer.length > 255) := by omega
  simp only [LoRa.tx, LoRa.txRest, LoRa.txRest.txAfterCalibration,
    PacketParams.setPayloadLength, stepCall, liftChip, withEv,
    hER, hSS, hSPP, hCI, hSC, hSP, hIP, hDT, hPI, hbl', if_false]
  split <;> split <;> simp_all [List.count_cons]

/-- Full run of `prepare_for_rx` when every chip operation succeeds: the
result is `Ok`, the tracked mode ends at `ReceiveDutyCycle` or `Receive`
according to whether duty-cycle parameters were supplied, the calibration
cache ends set, and `calibrate_image` is called exactly once when the
cache was invalid and never otherwise. -/
theorem prepareForRx_success_run {σ : Type} (rk : RadioKindModel σ)
    (mp : ModulationParams) (pkt : PacketParams) (dcp : Option DutyCycleParams)
    (rxCont boost : Bool) (st t : Nat) (s : LoRaState σ)
    (hER : ∀ c m, (rk.ensureReady c m).1 = .ok ())
    (hSS : ∀ c, (rk.setStandby c).1 = .ok ())
    (hSMP : ∀ c p, (rk.setModulationParams c p).1 = .ok ())
    (hSPP : ∀ c p, (rk.setPacketParams c p).1 = .ok ())
    (hCI : ∀ c f, (rk.calibrateImage c f).1 = .ok ())
    (hSC : ∀ c f, (rk.setChannel c f).1 = .ok ())
    (hIP : ∀ c m, (rk.setIrqParams c m).1 = .ok ())
    (hDR : ∀ c p d rc b st' t', (rk.doRx c p d rc b st' t').1 = .ok ()) :
    (LoRa.prepareForRx rk mp pkt dcp rxCont boost st t s).1 = .ok () ∧
    (LoRa.prepareForRx rk mp pkt dcp rxCont boost st t s).2.1.radioMode =
      (match dcp with | some _ => .ReceiveDutyCycle | none => .Receive) ∧
    (LoRa.prepareForRx rk mp pkt dcp rxCont boost st t s).2.1.imageCalibrated = true ∧
    ((LoRa.prepareForRx rk mp pkt dcp rxCont boost st t s).2.2.count .calibrateImage =
      if s.imageCalibrated = false then 1 else 0) := by
  simp only [LoRa.prepareForRx, LoRa.prepareForRxRest,
    LoRa.prepareForRxRest.prepareForRxAfterCalibration, stepCall, liftChip, withEv,
    hER, hSS, hSMP, hSPP, hCI, hSC, hIP, hDR]
  split <;> split <;> cases dcp <;> simp_all [List.count_cons]

/-- Full run of `prepare_for_cad` when every chip operation succeeds: the
result is `Ok`, the tracked mode ends at `ChannelActivityDetection`, the
calibration cache ends set, and `calibrate_image` is called exactly once
when the cache was invalid and never otherwise. -/
theorem prepareForCad_success_run {σ : Type} (rk : RadioKindModel σ)
    (mp : ModulationParams) (boost : Bool) (s : LoRaState σ)
    (hER : ∀ c m, (rk.ensureReady c m).1 = .ok ())
    (hSS : ∀ c, (rk.setStandby c).1 = .ok ())
    (hSMP : ∀ c p, (rk.setModulationParams c p).1 = .ok ())
    (hCI : ∀ c f, (rk.calibrateImage c f).1 = .ok ())
    (hSC : ∀ c f, (rk.setChannel c f).1 = .ok ())
    (hIP : ∀ c m, (rk.setIrqParams c m).1 = .ok ())
    (hDC : ∀ c p b, (rk.doCad c p b).1 = .ok ()) :
    (LoRa.prepareForCad rk mp boost s).1 = .ok () ∧
    (LoRa.prepareForCad rk mp boost s).2.1.radioMode = .ChannelActivityDetection ∧
    (LoRa.prepareForCad rk mp boost s).2.1.imageCalibrated = true ∧
    ((LoRa.prepareForCad rk mp boost s).2.2.count .calibrateImage =
      if s.imageCalibrated = false then 1 else 0) := by
  simp only [LoRa.prepareForCad, LoRa.prepareForCadRest,
    LoRa.prepareForCadRest.prepareForCadAfterCalibration, stepCall, liftChip, withEv,
    hER, hSS, hSMP, hCI, hSC, hIP, hDC]
  split <;> split <;> simp_all [List.count_cons]

/-- `sleep` from a non-`Sleep` mode, when ensure-ready succeeds and the
chip sleep succeeds reporting warm start unavailable: the run succeeds,
performs exactly the ensure-ready/set-sleep sequence, tracks mode
`Sleep`, and invalidates the image-calibration cache. -/
theorem sleep_no_warm_start_run {σ : Type} (rk : RadioKindModel σ)
    (s : LoRaState σ) (hmode : s.radioMode ≠ .Sleep)
    (hER : ∀ c, (rk.ensureReady c s.radioMode).1 = .ok ())
    (hSF : ∀ c, (rk.setSleep c).1 = .ok false) :
    LoRa.sleep rk s = (.ok (),
      { chip := (rk.setSleep (rk.ensureReady s.chip s.radioMode).2).2,
        radioMode := .Sleep, rxContinuous := s.rxContinuous,
        imageCalibrated := false }, [.ensureReady, .setSleep]) := by
  simp only [LoRa.sleep, stepCall, liftChip, hER, hSF, ne_eq, hmode,
    not_false_eq_true, if_true]

/-! ## Claim theorems -/

/-- C1 (amended): for every orchestrator whose chip operations all succeed
and whose interrupt interpretation reports transmit completion, the send
operation (`tx`) returns `Ok` and the orchestrator's tracked radio mode is
`Transmit` when it returns (the success path never restores `Standby`). -/
theorem c1_amended_tx_ok_mode_transmit {σ : Type} (rk : RadioKindModel σ)
    (mp : ModulationParams) (pkt : PacketParams) (buffer : List Nat) (t : Nat)
    (s : LoRaState σ)
    (hER : ∀ c m, (rk.ensureReady c m).1 = .ok ())
    (hSS : ∀ c, (rk.setStandby c).1 = .ok ())
    (hbl : buffer.length ≤ 255)
    (hSPP : ∀ c p, (rk.setPacketParams c p).1 = .ok ())
    (hCI : ∀ c f, (rk.calibrateImage c f).1 = .ok ())
    (hSC : ∀ c f, (rk.setChannel c f).1 = .ok ())
    (hSP : ∀ c b, (rk.setPayload c b).1 = .ok ())
    (hIP : ∀ c m, (rk.setIrqParams c m).1 = .ok ())
    (hDT : ∀ c tt, (rk.doTx c tt).1 = .ok ())
    (hPI : ∀ c, (rk.processIrq c .Transmit false).1 = .ok false) :
    (LoRa.tx rk mp pkt buffer t s).1 = .ok () ∧
    (LoRa.tx rk mp pkt buffer t s).2.1.radioMode = .Transmit := by
  have h := tx_success_run rk mp pkt buffer t s hER hSS hbl hSPP hCI hSC hSP hIP hDT hPI
  exact ⟨h.1, h.2.1⟩

/-- C1 (witness): the amended claim instantiated on `okChip` with an empty
payload, a 1000 ms timeout and an initialized (Standby) state. -/
theorem c1_witness :
    ([] : List Nat).length ≤ 255 ∧
    (LoRa.tx okChip scenarioMp scenarioPkt [] 1000
      ⟨(), .Standby, false, false⟩).1 = .ok () ∧
    (LoRa.tx okChip scenarioMp scenarioPkt [] 1000
      ⟨(), .Standby, false, false⟩).2.1.radioMode = .Transmit :=
  ⟨by decide,
   c1_amended_tx_ok_mode_transmit okChip scenarioMp scenarioPkt [] 1000
     ⟨(), .Standby, false, false⟩ (fun _ _ => rfl) (fun _ => rfl) (by decide)
     (fun _ _ => rfl) (fun _ _ => rfl) (fun _ _ => rfl) (fun _ _ => rfl)
     (fun _ _ => rfl) (fun _ _ => rfl) (fun _ => rfl)⟩

/-- C3 (amended): image calibration is tracked by a single boolean, not
per frequency: within successful send, receive, and CAD preparation it is
performed exactly once when the cache is invalid and not at all when the
cache is valid — a new channel frequency alone does not trigger
recalibration. -/
theorem c3_amended_calibration_once_per_invalidation :
    (∀ (σ : Type) (rk : RadioKindModel σ) (mp : ModulationParams)
        (pkt : PacketParams) (buffer : List Nat) (t : Nat) (s : LoRaState σ),
      (∀ c m, (rk.ensureReady c m).1 = .ok ()) →
      (∀ c, (rk.setStandby c).1 = .ok ()) →
      buffer.length ≤ 255 →
      (∀ c p, (rk.setPacketParams c p).1 = .ok ()) →
      (∀ c f, (rk.calibrateImage c f).1 = .ok ()) →
      (∀ c f, (rk.setChannel c f).1 = .ok ()) →
      (∀ c b, (rk.setPayload c b).1 = .ok ()) →
      (∀ c m, (rk.setIrqParams c m).1 = .ok ()) →
      (∀ c tt, (rk.doTx c tt).1 = .ok ()) →
      (∀ c, (rk.processIrq c .Transmit false).1 = .ok false) →
      ((LoRa.tx rk mp pkt buffer t s).2.2.count .calibrateImage =
        if s.imageCalibrated = false then 1 else 0) ∧
      (LoRa.tx rk mp pkt buffer t s).2.1.imageCalibrated = true) ∧
    (∀ (σ : Type) (rk : RadioKindModel σ) (mp : ModulationParams)
        (pkt : PacketParams) (dcp : Option DutyCycleParams) (rxCont boost : Bool)
        (st t : Nat) (s : LoRaState σ),
      (∀ c m, (rk.ensureReady c m).1 = .ok ()) →
      (∀ c, (rk.setStandby c).1 = .ok ()) →
      (∀ c p, (rk.setModulationParams c p).1 = .ok ()) →
      (∀ c p, (rk.setPacketParams c p).1 = .ok ()) →
      (∀ c f, (rk.calibrateImage c f).1 = .ok ()) →
      (∀ c f, (rk.setChannel c f).1 = .ok ()) →
      (∀ c m, (rk.setIrqParams c m).1 = .ok ()) →
      (∀ c p d rc b st' t', (rk.doRx c p d rc b st' t').1 = .ok ()) →
      ((LoRa.prepareForRx rk mp pkt dcp rxCont boost st t s).2.2.count
          .calibrateImage = if s.imageCalibrated = false then 1 else 0) ∧
      (LoRa.prepareForRx rk mp pkt dcp rxCont boost st t s).2.1.imageCalibrated
        = true) ∧
    (∀ (σ : Type) (rk : RadioKindModel σ) (mp : ModulationParams) (boost : Bool)
        (s : LoRaState σ),
      (∀ c m, (rk.ensureReady c m).1 = .ok ()) →
      (∀ c, (rk.setStandby c).1 = .ok ()) →
      (∀ c p, (rk.setModulationParams c p).1 = .ok ()) →
      (∀ c f, (rk.calibrateImage c f).1 = .ok ()) →
      (∀ c f, (rk.setChannel c f).1 = .ok ()) →
      (∀ c m, (rk.setIrqParams c m).1 = .ok ()) →
      (∀ c p b, (rk.doCad c p b).1 = .ok ()) →
      ((LoRa.prepareForCad rk mp boost s).2.2.count .calibrateImage =
        if s.imageCalibrated = false then 1 else 0) ∧
      (LoRa.prepareForCad rk mp boost s).2.1.imageCalibrated = true) := by
  refine ⟨?_, ?_, ?_⟩
  · intro σ rk mp pkt buffer t s hER hSS hbl hSPP hCI hSC hSP hIP hDT hPI
    have h := tx_success_run rk mp pkt buffer t s hER hSS hbl hSPP hCI hSC hSP hIP hDT hPI
    exact ⟨h.2.2.2, h.2.2.1⟩
  · intro σ rk mp pkt dcp rxCont boost st t s hER hSS hSMP hSPP hCI hSC hIP hDR
    have h := prepareForRx_success_run rk mp pkt dcp rxCont boost st t s hER hSS
      hSMP hSPP hCI hSC hIP hDR
    exact ⟨h.2.2.2, h.2.2.1⟩
  · intro σ rk mp boost s hER hSS hSMP hCI hSC hIP hDC
    have h := prepareForCad_success_run rk mp boost s hER hSS hSMP hCI hSC hIP hDC
    exact ⟨h.2.2.2, h.2.2.1⟩

/-- C3 (witness): the amended claim instantiated on `okChip` — a receive
preparation from a calibrated state performs zero calibrations, and one
from an invalidated state performs exactly one. -/
theorem c3_witness :
    ((LoRa.prepareForRx okChip scenarioMp2 scenarioPkt none false false 5 1000
        ⟨(), .Standby, false, true⟩).2.2.count .calibrateImage =
      if (⟨(), .Standby, false, true⟩ : LoRaState Unit).imageCalibrated = false
      then 1 else 0) ∧
    ((LoRa.prepareForRx okChip scenarioMp2 scenarioPkt none false false 5 1000
        ⟨(), .Standby, false, false⟩).2.2.count .calibrateImage =
      if (⟨(), .Standby, false, false⟩ : LoRaState Unit).imageCalibrated = false
      then 1 else 0) :=
  ⟨(c3_amended_calibration_once_per_invalidation.2.1 Unit okChip scenarioMp2
      scenarioPkt none false false 5 1000 ⟨(), .Standby, false, true⟩
      (fun _ _ => rfl) (fun _ => rfl) (fun _ _ => rfl) (fun _ _ => rfl)
      (fun _ _ => rfl) (fun _ _ => rfl) (fun _ _ => rfl)
      (fun _ _ _ _ _ _ _ => rfl)).1,
   (c3_amended_calibration_once_per_invalidation.2.1 Unit okChip scenarioMp2
      scenarioPkt none false false 5 1000 ⟨(), .Standby, false, false⟩
      (fun _ _ => rfl) (fun _ => rfl) (fun _ _ => rfl) (fun _ _ => rfl)
      (fun _ _ => rfl) (fun _ _ => rfl) (fun _ _ => rfl)
      (fun _ _ _ _ _ _ _ => rfl)).1⟩

/-- C4: when `rx` interprets an operational error while continuous receive
is active, the error is returned, the tracked mode is left unchanged at
`Receive`, and no further chip call is made; when continuous receive is
not active, the device is forced back to Standby (ensure-ready then
set-standby, with the tracked mode set to `Standby`) before the error is
returned. -/
theorem c4_rx_error_mode_handling :
    (∀ (σ : Type) (rk : RadioKindModel σ) (s : LoRaState σ) (pkt : PacketParams)
        (n : Nat) (e : RadioError),
      s.rxContinuous = true → s.radioMode = .Receive →
      (rk.processIrq s.chip s.radioMode s.rxContinuous).1 = .error e →
      (LoRa.rx rk pkt n s).1 = .error e ∧
      (LoRa.rx rk pkt n s).2.1.radioMode = .Receive ∧
      (LoRa.rx rk pkt n s).2.2 = [.processIrq]) ∧
    (∀ (σ : Type) (rk : RadioKindModel σ) (s : LoRaState σ) (pkt : PacketParams)
        (n : Nat) (e : RadioError),
      s.rxContinuous = false →
      (rk.processIrq s.chip s.radioMode s.rxContinuous).1 = .error e →
      (∀ c, (rk.ensureReady c s.radioMode).1 = .ok ()) →
      (∀ c, (rk.setStandby c).1 = .ok ()) →
      (LoRa.rx rk pkt n s).1 = .error e ∧
      (LoRa.rx rk pkt n s).2.1.radioMode = .Standby ∧
      (LoRa.rx rk pkt n s).2.2 = [.processIrq, .ensureReady, .setStandby]) := by
  constructor
  · intro σ rk s pkt n e hcont hmode hirq
    rw [hcont, hmode] at hirq
    simp only [LoRa.rx, withEv, hmode, hcont, hirq]
    simp
  · intro σ rk s pkt n e hcont hirq hER hSS
    rw [hcont] at hirq
    simp only [LoRa.rx, withEv, stepCall, liftChip, hcont, hirq, hER, hSS]
    simp

/-- C4 (witness): the claim instantiated on `crcErrChip` in continuous and
single-shot receive states. -/
theorem c4_witness :
    ((LoRa.rx crcErrChip scenarioPkt 16 ⟨(), .Receive, true, true⟩).1 =
        .error .CRCErrorOnReceive ∧
      (LoRa.rx crcErrChip scenarioPkt 16
        ⟨(), .Receive, true, true⟩).2.1.radioMode = .Receive ∧
      (LoRa.rx crcErrChip scenarioPkt 16 ⟨(), .Receive, true, true⟩).2.2 =
        [.processIrq]) ∧
    ((LoRa.rx crcErrChip scenarioPkt 16 ⟨(), .Receive, false, true⟩).1 =
        .error .CRCErrorOnReceive ∧
      (LoRa.rx crcErrChip scenarioPkt 16
        ⟨(), .Receive, false, true⟩).2.1.radioMode = .Standby ∧
      (LoRa.rx crcErrChip scenarioPkt 16 ⟨(), .Receive, false, true⟩).2.2 =
        [.processIrq, .ensureReady, .setStandby]) :=
  ⟨c4_rx_error_mode_handling.1 Unit crcErrChip ⟨(), .Receive, true, true⟩
     scenarioPkt 16 .CRCErrorOnReceive rfl rfl rfl,
   c4_rx_error_mode_handling.2 Unit crcErrChip ⟨(), .Receive, false, true⟩
     scenarioPkt 16 .CRCErrorOnReceive rfl rfl (fun _ => rfl) (fun _ => rfl)⟩

/-- C5: in the error-recovery path of send, single-shot receive-result,
and CAD-result, if the forced return to Standby itself fails — the
recovery `ensure_ready` fails, or it succeeds and `set_standby` fails —
the recovery error is returned to the caller in place of the original
interpreted error. -/
theorem c5_recovery_error_replaces_original :
    (∀ (σ : Type) (rk : RadioKindModel σ) (mp : ModulationParams)
        (pkt : PacketParams) (buffer : List Nat) (t : Nat) (s : LoRaState σ)
        (e e2 : RadioError),
      s.radioMode = .Standby →
      (∀ c, (rk.ensureReady c .Standby).1 = .ok ()) →
      buffer.length ≤ 255 →
      (∀ c p, (rk.setPacketParams c p).1 = .ok ()) →
      (∀ c f, (rk.calibrateImage c f).1 = .ok ()) →
      (∀ c f, (rk.setChannel c f).1 = .ok ()) →
      (∀ c b, (rk.setPayload c b).1 = .ok ()) →
      (∀ c m, (rk.setIrqParams c m).1 = .ok ()) →
      (∀ c tt, (rk.doTx c tt).1 = .ok ()) →
      (∀ c, (rk.processIrq c .Transmit false).1 = .error e) →
      (∀ c, (rk.ensureReady c .Transmit).1 = .error e2) →
      (LoRa.tx rk mp pkt buffer t s).1 = .error e2) ∧
    (∀ (σ : Type) (rk : RadioKindModel σ) (mp : ModulationParams)
        (pkt : PacketParams) (buffer : List Nat) (t : Nat) (s : LoRaState σ)
        (e e2 : RadioError),
      s.radioMode = .Standby →
      (∀ c m, (rk.ensureReady c m).1 = .ok ()) →
      buffer.length ≤ 255 →
      (∀ c p, (rk.setPacketParams c p).1 = .ok ()) →
      (∀ c f, (rk.calibrateImage c f).1 = .ok ()) →
      (∀ c f, (rk.setChannel c f).1 = .ok ()) →
      (∀ c b, (rk.setPayload c b).1 = .ok ()) →
      (∀ c m, (rk.setIrqParams c m).1 = .ok ()) →
      (∀ c tt, (rk.doTx c tt).1 = .ok ()) →
      (∀ c, (rk.processIrq c .Transmit false).1 = .error e) →
      (∀ c, (rk.setStandby c).1 = .error e2) →
      (LoRa.tx rk mp pkt buffer t s).1 = .error e2) ∧
    (∀ (σ : Type) (rk : RadioKindModel σ) (s : LoRaState σ)
        (pkt : PacketParams) (n : Nat) (e e2 : RadioError),
      s.rxContinuous = false →
      (rk.processIrq s.chip s.radioMode s.rxContinuous).1 = .error e →
      (∀ c, (rk.ensureReady c s.radioMode).1 = .error e2) →
      (LoRa.rx rk pkt n s).1 = .error e2) ∧
    (∀ (σ : Type) (rk : RadioKindModel σ) (s : LoRaState σ)
        (pkt : PacketParams) (n : Nat) (e e2 : RadioError),
      s.rxContinuous = false →
      (rk.processIrq s.chip s.radioMode s.rxContinuous).1 = .error e →
      (∀ c, (rk.ensureReady c s.radioMode).1 = .ok ()) →
      (∀ c, (rk.setStandby c).1 = .error e2) →
      (LoRa.rx rk pkt n s).1 = .error e2) ∧
    (∀ (σ : Type) (rk : RadioKindModel σ) (s : LoRaState σ) (e e2 : RadioError),
      (rk.processIrq s.chip s.radioMode s.rxContinuous).1 = .error e →
      (∀ c, (rk.ensureReady c s.radioMode).1 = .error e2) →
      (LoRa.cad rk s).1 = .error e2) ∧
    (∀ (σ : Type) (rk : RadioKindModel σ) (s : LoRaState σ) (e e2 : RadioError),
      (rk.processIrq s.chip s.radioMode s.rxContinuous).1 = .error e →
      (∀ c, (rk.ensureReady c s.radioMode).1 = .ok ()) →
      (∀ c, (rk.setStandby c).1 = .error e2) →
      (LoRa.cad rk s).1 = .error e2) := by
  refine ⟨?_, ?_, ?_, ?_, ?_, ?_⟩
  · intro σ rk mp pkt buffer t s e e2 hmode hERpre hbl hSPP hCI hSC hSP hIP hDT
      hPIe hERrec
    have hbl' : ¬ (buffer.length > 255) := by omega
    simp only [LoRa.tx, LoRa.txRest, LoRa.txRest.txAfterCalibration,
      PacketParams.setPayloadLength, stepCall, liftChip, withEv, hmode, ne_eq,
      eq_self_iff_true, not_true_eq_false, if_false, hERpre, hSPP, hCI, hSC,
      hSP, hIP, hDT, hPIe, hERrec, hbl']
    split <;> simp_all
  · intro σ rk mp pkt buffer t s e e2 hmode hER hbl hSPP hCI hSC hSP hIP hDT
      hPIe hSSf
    have hbl' : ¬ (buffer.length > 255) := by omega
    simp only [LoRa.tx, LoRa.txRest, LoRa.txRest.txAfterCalibration,
      PacketParams.setPayloadLength, stepCall, liftChip, withEv, hmode, ne_eq,
      eq_self_iff_true, not_true_eq_false, if_false, hER, hSPP, hCI, hSC,
      hSP, hIP, hDT, hPIe, hSSf, hbl']
    split <;> simp_all
  · intro σ rk s pkt n e e2 hcont hirq hERrec
    rw [hcont] at hirq
    simp only [LoRa.rx, withEv, stepCall, liftChip, hcont, hirq, hERrec]
    simp
  · intro σ rk s pkt n e e2 hcont hirq hER hSSf
    rw [hcont] at hirq
    simp only [LoRa.rx, withEv, stepCall, liftChip, hcont, hirq, hER, hSSf]
    simp
  · intro σ rk s e e2 hirq hERrec
    simp only [LoRa.cad, withEv, stepCall, liftChip, hirq, hERrec]
  · intro σ rk s e e2 hirq hER hSSf
    simp only [LoRa.cad, withEv, stepCall, liftChip, hirq, hER, hSSf]

/-- C5 (witness): the claim instantiated on fake chips whose recovery
`ensure_ready` (for modes other than Standby) or `set_standby` fails. -/
theorem c5_witness :
    (LoRa.tx readyFailChip scenarioMp scenarioPkt [] 5
      ⟨(), .Standby, false, true⟩).1 = .error .Busy ∧
    (LoRa.tx standbyFailChip scenarioMp scenarioPkt [] 5
      ⟨(), .Standby, false, true⟩).1 = .error .NSS ∧
    (LoRa.rx readyFailChip scenarioPkt 16
      ⟨(), .Receive, false, true⟩).1 = .error .Busy ∧
    (LoRa.rx standbyFailChip scenarioPkt 16
      ⟨(), .Receive, false, true⟩).1 = .error .NSS ∧
    (LoRa.cad readyFailChip
      ⟨(), .ChannelActivityDetection, false, true⟩).1 = .error .Busy ∧
    (LoRa.cad standbyFailChip
      ⟨(), .ChannelActivityDetection, false, true⟩).1 = .error .NSS :=
  ⟨c5_recovery_error_replaces_original.1 Unit readyFailChip scenarioMp
     scenarioPkt [] 5 ⟨(), .Standby, false, true⟩ .CRCErrorUnexpected .Busy rfl
     (fun _ => rfl) (by decide) (fun _ _ => rfl) (fun _ _ => rfl)
     (fun _ _ => rfl) (fun _ _ => rfl) (fun _ _ => rfl) (fun _ _ => rfl)
     (fun _ => rfl) (fun _ => rfl),
   c5_recovery_error_replaces_original.2.1 Unit standbyFailChip scenarioMp
     scenarioPkt [] 5 ⟨(), .Standby, false, true⟩ .CRCErrorUnexpected .NSS rfl
     (fun _ _ => rfl) (by decide) (fun _ _ => rfl) (fun _ _ => rfl)
     (fun _ _ => rfl) (fun _ _ => rfl) (fun _ _ => rfl) (fun _ _ => rfl)
     (fun _ => rfl) (fun _ => rfl),
   c5_recovery_error_replaces_original.2.2.1 Unit readyFailChip
     ⟨(), .Receive, false, true⟩ scenarioPkt 16 .CRCErrorUnexpected .Busy rfl
     rfl (fun _ => rfl),
   c5_recovery_error_replaces_original.2.2.2.1 Unit standbyFailChip
     ⟨(), .Receive, false, true⟩ scenarioPkt 16 .CRCErrorUnexpected .NSS rfl
     rfl (fun _ => rfl) (fun _ => rfl),
   c5_recovery_error_replaces_original.2.2.2.2.1 Unit readyFailChip
     ⟨(), .ChannelActivityDetection, false, true⟩ .CRCErrorUnexpected .Busy
     rfl (fun _ => rfl),
   c5_recovery_error_replaces_original.2.2.2.2.2 Unit standbyFailChip
     ⟨(), .ChannelActivityDetection, false, true⟩ .CRCErrorUnexpected .NSS
     rfl (fun _ => rfl) (fun _ => rfl)⟩

/-- C8: calling `sleep` twice in a row performs the hardware sleep
sequence (ensure-ready followed by set-sleep) exactly once: a call with
tracked mode already `Sleep` performs no chip operation (empty trace, state
unchanged) and returns `Ok`, and a successful call from any other mode
performs exactly `[ensureReady, setSleep]`, after which the repeated call
is a no-op. -/
theorem c8_sleep_idempotent :
    (∀ (σ : Type) (rk : RadioKindModel σ) (s : LoRaState σ),
      s.radioMode = .Sleep → LoRa.sleep rk s = (.ok (), s, [])) ∧
    (∀ (σ : Type) (rk : RadioKindModel σ) (s : LoRaState σ),
      s.radioMode ≠ .Sleep →
      (∀ c, (rk.ensureReady c s.radioMode).1 = .ok ()) →
      (∀ c, ∃ b, (rk.setSleep c).1 = .ok b) →
      (LoRa.sleep rk s).1 = .ok () ∧
      (LoRa.sleep rk s).2.1.radioMode = .Sleep ∧
      (LoRa.sleep rk s).2.2 = [.ensureReady, .setSleep] ∧
      LoRa.sleep rk (LoRa.sleep rk s).2.1 =
        (.ok (), (LoRa.sleep rk s).2.1, [])) := by
  constructor
  · intro σ rk s h
    simp [LoRa.sleep, h]
  · intro σ rk s h hER hSl
    obtain ⟨b, hb⟩ := hSl (rk.ensureReady s.chip s.radioMode).2
    simp only [LoRa.sleep, stepCall, liftChip, hER, hb, ne_eq, h,
      not_false_eq_true, if_true]
    cases b <;> simp

/-- C8 (witness): the claim instantiated on `okChip` from Standby. -/
theorem c8_witness :
    RadioMode.Standby ≠ RadioMode.Sleep ∧
    (LoRa.sleep okChip ⟨(), .Standby, false, true⟩).1 = .ok () ∧
    (LoRa.sleep okChip ⟨(), .Standby, false, true⟩).2.1.radioMode = .Sleep ∧
    (LoRa.sleep okChip ⟨(), .Standby, false, true⟩).2.2 =
      [.ensureReady, .setSleep] ∧
    LoRa.sleep okChip (LoRa.sleep okChip ⟨(), .Standby, false, true⟩).2.1 =
      (.ok (), (LoRa.sleep okChip ⟨(), .Standby, false, true⟩).2.1, []) :=
  ⟨by decide, c8_sleep_idempotent.2 Unit okChip ⟨(), .Standby, false, true⟩
    (by decide) (fun _ => rfl) (fun _ => ⟨true, rfl⟩)⟩

/-- C9: family B's `set_sleep` reports warm start unavailable (`false`)
whenever it succeeds; consequently a successful orchestrator `sleep` from
a non-`Sleep` mode over any chip that never reports warm start
invalidates the image-calibration cache, and the next (successful)
receive preparation performs `calibrate_image` again. -/
theorem c9_sx127x_no_warm_start :
    (∀ (σ : Type) (intf : IntfModel σ) (c : σ) (b : Bool),
      (sx1276789SetSleep intf c).1 = .ok b → b = false) ∧
    (∀ (σ : Type) (rk : RadioKindModel σ) (s : LoRaState σ),
      (∀ c b, (rk.setSleep c).1 = .ok b → b = false) →
      s.radioMode ≠ .Sleep →
      (∀ c, (rk.ensureReady c s.radioMode).1 = .ok ()) →
      (∀ c, ∃ b, (rk.setSleep c).1 = .ok b) →
      (LoRa.sleep rk s).1 = .ok () ∧
      (LoRa.sleep rk s).2.1.imageCalibrated = false) ∧
    (∀ (σ : Type) (rk : RadioKindModel σ) (mp : ModulationParams)
        (pkt : PacketParams) (st t : Nat) (s : LoRaState σ),
      s.imageCalibrated = false →
      (∀ c m, (rk.ensureReady c m).1 = .ok ()) →
      (∀ c, (rk.setStandby c).1 = .ok ()) →
      (∀ c p, (rk.setModulationParams c p).1 = .ok ()) →
      (∀ c p, (rk.setPacketParams c p).1 = .ok ()) →
      (∀ c f, (rk.calibrateImage c f).1 = .ok ()) →
      (∀ c f, (rk.setChannel c f).1 = .ok ()) →
      (∀ c m, (rk.setIrqParams c m).1 = .ok ()) →
      (∀ c p d rc b st' t', (rk.doRx c p d rc b st' t').1 = .ok ()) →
      (LoRa.prepareForRx rk mp pkt none false false st t s).1 = .ok () ∧
      ChipOp.calibrateImage ∈
        (LoRa.prepareForRx rk mp pkt none false false st t s).2.2) := by
  refine ⟨?_, ?_, ?_⟩
  · intro σ intf c b h
    rcases hd : (intf.disableRfSwitch c).1 with e | u
    · simp [sx1276789SetSleep, stepCall, hd] at h
    · rcases hw : (intf.write (intf.disableRfSwitch c).2
          [[reg127OpModeWriteAddr, loraMode127SleepValue]] true).1 with e | u2
      · simp [sx1276789SetSleep, stepCall, hd, hw] at h
      · cases b
        · rfl
        · simp [sx1276789SetSleep, stepCall, hd, hw] at h
  · intro σ rk s hws h hER hSl
    have hSF : ∀ c, (rk.setSleep c).1 = .ok false := by
      intro c
      obtain ⟨b, hb⟩ := hSl c
      have hbf := hws c b hb
      rw [hbf] at hb
      exact hb
    rw [sleep_no_warm_start_run rk s h hER hSF]
    exact ⟨rfl, rfl⟩
  · intro σ rk mp pkt st t s hs hER hSS hSMP hSPP hCI hSC hIP hDR
    have h := prepareForRx_success_run rk mp pkt none false false st t s hER hSS
      hSMP hSPP hCI hSC hIP hDR
    have hc := h.2.2.2
    refine ⟨h.1, ?_⟩
    by_contra hnm
    rw [List.count_eq_zero.mpr hnm, hs] at hc
    simp at hc

/-- C9 (witness): family B's sleep on a trivial interface returns `false`;
a sleep over `noWarmStartChip` invalidates the cache; and the next receive
preparation on `okChip` calibrates again. -/
theorem c9_witness :
    (sx1276789SetSleep okIntf ()).1 = .ok false ∧
    (false : Bool) = false ∧
    ((LoRa.sleep noWarmStartChip ⟨(), .Standby, false, true⟩).1 = .ok () ∧
      (LoRa.sleep noWarmStartChip
        ⟨(), .Standby, false, true⟩).2.1.imageCalibrated = false) ∧
    ((LoRa.prepareForRx okChip scenarioMp scenarioPkt none false false 5 1000
        ⟨(), .Sleep, false, false⟩).1 = .ok () ∧
      ChipOp.calibrateImage ∈
        (LoRa.prepareForRx okChip scenarioMp scenarioPkt none false false 5 1000
          ⟨(), .Sleep, false, false⟩).2.2) :=
  ⟨rfl,
   c9_sx127x_no_warm_start.1 Unit okIntf () false rfl,
   c9_sx127x_no_warm_start.2.1 Unit noWarmStartChip ⟨(), .Standby, false, true⟩
     (fun _ b hb => (Except.ok.inj hb).symm) (by decide) (fun _ => rfl)
     (fun _ => ⟨false, rfl⟩),
   c9_sx127x_no_warm_start.2.2 Unit okChip scenarioMp scenarioPkt 5 1000
     ⟨(), .Sleep, false, false⟩ rfl (fun _ _ => rfl) (fun _ => rfl)
     (fun _ _ => rfl) (fun _ _ => rfl) (fun _ _ => rfl) (fun _ _ => rfl)
     (fun _ _ => rfl) (fun _ _ _ _ _ _ _ => rfl)⟩

/-- C2 (code_bug evidence): on family A (SX126x), an interrupt-flag set
holding only a progress flag — header valid, preamble detected, or
syncword valid — is classified as success, so `process_irq` returns
`Ok(())` to the caller instead of looping to wait again (the code's own
comment, and the spec, say these flags loop); on family B (SX127x) the
same header-valid-only flag set does loop, leaving the wait loop still
blocked after the poll. -/
theorem c2_progress_flags_family_divergence :
    classify126 { headerValid := true } .Receive = .succeed false ∧
    classify126 { preambleDetected := true } .Receive = .succeed false ∧
    classify126 { syncwordValid := true } .Receive = .succeed false ∧
    processIrqLoop126 .Receive [{ headerValid := true }] =
      some (.succeed false) ∧
    classify127 { headerValid := true } .Receive = .wait ∧
    processIrqLoop127 .Receive [{ headerValid := true }] = none := by
  decide

/-- C6: family A's retention list holds at most 4 registers.  Adding a
register already present returns `Ok` with no register write (the trace
holds only the read-back); adding a distinct register when the list
already holds `maxNumberRegsInRetention` (4) fails with
`RetentionListExceeded` and performs no register write. -/
theorem c6_retention_list_bound :
    (∀ (buffer : List Nat) (reg : Reg126),
      regInRetention buffer reg (buffer.getD 0 0) = true →
      retentionDecision buffer reg = .ok none) ∧
    (∀ (buffer : List Nat) (reg : Reg126),
      buffer.getD 0 0 = maxNumberRegsInRetention →
      regInRetention buffer reg (buffer.getD 0 0) = false →
      retentionDecision buffer reg = .error .RetentionListExceeded) ∧
    (∀ (σ : Type) (intf : IntfModel σ) (c c1 : σ) (reg : Reg126)
        (buffer : List Nat),
      intf.read c [[opReadRegister, regRetentionList.addr1,
        regRetentionList.addr2, 0x00]] 9 none = (.ok buffer, c1) →
      regInRetention buffer reg (buffer.getD 0 0) = true →
      addRegisterToRetentionList126 intf reg c =
        (.ok (), c1, [.read [[opReadRegister, regRetentionList.addr1,
          regRetentionList.addr2, 0x00]] 9 none])) ∧
    (∀ (σ : Type) (intf : IntfModel σ) (c c1 : σ) (reg : Reg126)
        (buffer : List Nat),
      intf.read c [[opReadRegister, regRetentionList.addr1,
        regRetentionList.addr2, 0x00]] 9 none = (.ok buffer, c1) →
      buffer.getD 0 0 = maxNumberRegsInRetention →
      regInRetention buffer reg (buffer.getD 0 0) = false →
      addRegisterToRetentionList126 intf reg c =
        (.error .RetentionListExceeded, c1, [.read [[opReadRegister,
          regRetentionList.addr1, regRetentionList.addr2, 0x00]] 9 none])) := by
  have hdec1 : ∀ (buffer : List Nat) (reg : Reg126),
      regInRetention buffer reg (buffer.getD 0 0) = true →
      retentionDecision buffer reg = .ok none := by
    intro buffer reg h
    simp only [retentionDecision, h]
    simp
  have hdec2 : ∀ (buffer : List Nat) (reg : Reg126),
      buffer.getD 0 0 = maxNumberRegsInRetention →
      regInRetention buffer reg (buffer.getD 0 0) = false →
      retentionDecision buffer reg = .error .RetentionListExceeded := by
    intro buffer reg hn h
    rw [hn] at h
    simp only [maxNumberRegsInRetention] at h
    simp only [retentionDecision, hn, maxNumberRegsInRetention, h]
    simp
  refine ⟨hdec1, hdec2, ?_, ?_⟩
  · intro σ intf c c1 reg buffer hread h
    unfold addRegisterToRetentionList126
    rw [stepCall_ok _ (by rw [hread])]
    have : (intf.read c [[opReadRegister, regRetentionList.addr1,
        regRetentionList.addr2, 0x00]] 9 none).2 = c1 := by rw [hread]
    rw [this, hdec1 buffer reg h]
  · intro σ intf c c1 reg buffer hread hn h
    unfold addRegisterToRetentionList126
    rw [stepCall_ok _ (by rw [hread])]
    have : (intf.read c [[opReadRegister, regRetentionList.addr1,
        regRetentionList.addr2, 0x00]] 9 none).2 = c1 := by rw [hread]
    rw [this, hdec2 buffer reg hn h]

/-- C6 (witness): the claim instantiated on concrete retention-list
buffers — re-adding register `(3,4)` to a 2-entry list is an `Ok` no-op,
and adding a distinct register `(9,9)` to a full 4-entry list fails with
`RetentionListExceeded`; in both cases the only interface event is the
read-back. -/
theorem c6_witness :
    regInRetention [2, 1, 2, 3, 4, 0, 0, 0, 0] ⟨3, 4⟩
      (([2, 1, 2, 3, 4, 0, 0, 0, 0] : List Nat).getD 0 0) = true ∧
    retentionDecision [2, 1, 2, 3, 4, 0, 0, 0, 0] ⟨3, 4⟩ = .ok none ∧
    retentionDecision [4, 1, 2, 3, 4, 5, 6, 7, 8] ⟨9, 9⟩ =
      .error .RetentionListExceeded ∧
    addRegisterToRetentionList126 presentIntf ⟨3, 4⟩ () =
      (.ok (), (), [.read [[opReadRegister, regRetentionList.addr1,
        regRetentionList.addr2, 0x00]] 9 none]) ∧
    addRegisterToRetentionList126 fullIntf ⟨9, 9⟩ () =
      (.error .RetentionListExceeded, (), [.read [[opReadRegister,
        regRetentionList.addr1, regRetentionList.addr2, 0x00]] 9 none]) :=
  ⟨by decide,
   c6_retention_list_bound.1 [2, 1, 2, 3, 4, 0, 0, 0, 0] ⟨3, 4⟩ (by decide),
   c6_retention_list_bound.2.1 [4, 1, 2, 3, 4, 5, 6, 7, 8] ⟨9, 9⟩ (by decide)
     (by decide),
   c6_retention_list_bound.2.2.1 Unit presentIntf () () ⟨3, 4⟩
     [2, 1, 2, 3, 4, 0, 0, 0, 0] rfl (by decide),
   c6_retention_list_bound.2.2.2 Unit fullIntf () () ⟨9, 9⟩
     [4, 1, 2, 3, 4, 5, 6, 7, 8] rfl (by decide) (by decide)⟩

/-- C10: in family A's receive start (`do_rx`), supplying duty-cycle
parameters together with continuous receive fails with
`DutyCycleRxContinuousUnsupported` before any interface interaction
(state unchanged, empty event trace); supplying duty-cycle parameters
without continuous receive overrides the caller's symbol timeout to 0
before encoding, so the run is identical to one called with symbol
timeout 0. -/
theorem c10_do_rx_duty_cycle :
    (∀ (σ : Type) (intf : IntfModel σ) (pkt : PacketParams)
        (d : DutyCycleParams) (boost : Bool) (st t : Nat) (c : σ),
      doRx126 intf pkt (some d) true boost st t c =
        (.error .DutyCycleRxContinuousUnsupported, c, [])) ∧
    (∀ (σ : Type) (intf : IntfModel σ) (pkt : PacketParams)
        (d : DutyCycleParams) (boost : Bool) (st t : Nat) (c : σ),
      doRx126 intf pkt (some d) false boost st t c =
        doRx126 intf pkt (some d) false boost 0 t c) :=
  ⟨fun _ _ _ _ _ _ _ _ => rfl, fun _ _ _ _ _ _ _ _ => rfl⟩

/-- C7: for every supported spreading-factor/bandwidth/coding-rate
combination, family A's modulation-parameter construction sets the
low-data-rate-optimize flag exactly for SF11/BW125, SF12/BW125 and
SF12/BW250; family B's sets it exactly when the computed symbol duration
exceeds 16 ms; and on both families, a supported combination with
bandwidth 250 or 500 kHz and frequency below 400 MHz fails with
`InvalidBandwidthForFrequency`. -/
theorem c7_ldro_and_bandwidth_frequency :
    (∀ (sf : SpreadingFactor) (bw : Bandwidth) (cr : CodingRate) (freq : Nat)
        (p : ModulationParams),
      ModulationParams.newForSx1261_2 sf bw cr freq = .ok p →
      (p.lowDataRateOptimize = 1 ↔
        (((sf = ._11 ∨ sf = ._12) ∧ bw = ._125KHz) ∨
          (sf = ._12 ∧ bw = ._250KHz)))) ∧
    (∀ (sf : SpreadingFactor) (bw : Bandwidth) (cr : CodingRate) (freq : Nat)
        (p : ModulationParams) (sfVal : Nat),
      spreadingFactorValue127 sf = .ok sfVal →
      ModulationParams.newForSx1276_7_8_9 sf bw cr freq = .ok p →
      (p.lowDataRateOptimize = 1 ↔ symbolDurationMs sfVal bw > 16)) ∧
    (∀ (sf : SpreadingFactor) (bw : Bandwidth) (cr : CodingRate) (freq : Nat),
      (bw = ._250KHz ∨ bw = ._500KHz) → freq < 400000000 →
      ModulationParams.newForSx1261_2 sf bw cr freq =
        .error .InvalidBandwidthForFrequency) ∧
    (∀ (sf : SpreadingFactor) (bw : Bandwidth) (cr : CodingRate) (freq : Nat)
        (sfVal : Nat),
      spreadingFactorValue127 sf = .ok sfVal →
      (bw = ._250KHz ∨ bw = ._500KHz) → freq < 400000000 →
      ModulationParams.newForSx1276_7_8_9 sf bw cr freq =
        .error .InvalidBandwidthForFrequency) := by
  refine ⟨?_, ?_, ?_, ?_⟩
  · intro sf bw cr freq p h
    obtain ⟨v1, h1⟩ := spreadingFactorValue126_ok sf
    obtain ⟨v2, h2⟩ := bandwidthValue126_ok bw
    obtain ⟨v3, h3⟩ := codingRateValue126_ok cr
    rw [ModulationParams.newForSx1261_2, h1, h2, h3] at h
    dsimp only at h
    split at h
    · exact absurd h (by simp)
    · rw [Except.ok.injEq] at h
      subst h
      dsimp only
      split
      · rename_i hcond
        simpa using hcond
      · rename_i hcond
        simpa using hcond
  · intro sf bw cr freq p sfVal hsv h
    obtain ⟨v2, h2⟩ := bandwidthValue127_ok bw
    obtain ⟨v3, h3⟩ := codingRateDenominatorValue127_ok cr
    rw [ModulationParams.newForSx1276_7_8_9, hsv, h2, h3] at h
    dsimp only at h
    split at h
    · exact absurd h (by simp)
    · rw [Except.ok.injEq] at h
      subst h
      dsimp only
      split
      · rename_i hcond
        simpa using hcond
      · rename_i hcond
        simpa using hcond
  · intro sf bw cr freq hbw hfreq
    obtain ⟨v1, h1⟩ := spreadingFactorValue126_ok sf
    obtain ⟨v2, h2⟩ := bandwidthValue126_ok bw
    obtain ⟨v3, h3⟩ := codingRateValue126_ok cr
    rw [ModulationParams.newForSx1261_2, h1, h2, h3, if_pos ⟨hbw, hfreq⟩]
  · intro sf bw cr freq sfVal hsv hbw hfreq
    obtain ⟨v2, h2⟩ := bandwidthValue127_ok bw
    obtain ⟨v3, h3⟩ := codingRateDenominatorValue127_ok cr
    rw [ModulationParams.newForSx1276_7_8_9, hsv, h2, h3, if_pos ⟨hbw, hfreq⟩]

/-- C7 (witness): the theorem instantiated at concrete supported
combinations — family A flags SF11/BW125; family B's SF12/BW125 has a
33 ms symbol duration and is flagged; and 250/500 kHz below 400 MHz is
rejected on both families. -/
theorem c7_witness :
    (({ spreadingFactor := SpreadingFactor._11, bandwidth := ._125KHz,
        codingRate := ._4_5, lowDataRateOptimize := 1,
        frequencyInHz := 915000000 } : ModulationParams).lowDataRateOptimize = 1 ↔
      (((SpreadingFactor._11 = SpreadingFactor._11 ∨
          SpreadingFactor._11 = SpreadingFactor._12) ∧
          Bandwidth._125KHz = Bandwidth._125KHz) ∨
        (SpreadingFactor._11 = SpreadingFactor._12 ∧
          Bandwidth._125KHz = Bandwidth._250KHz))) ∧
    (({ spreadingFactor := SpreadingFactor._12, bandwidth := ._125KHz,
        codingRate := ._4_5, lowDataRateOptimize := 1,
        frequencyInHz := 915000000 } : ModulationParams).lowDataRateOptimize = 1 ↔
      symbolDurationMs 12 ._125KHz > 16) ∧
    ModulationParams.newForSx1261_2 ._7 ._250KHz ._4_8 300000000 =
      .error .InvalidBandwidthForFrequency ∧
    ModulationParams.newForSx1276_7_8_9 ._7 ._500KHz ._4_5 399999999 =
      .error .InvalidBandwidthForFrequency :=
  ⟨c7_ldro_and_bandwidth_frequency.1 ._11 ._125KHz ._4_5 915000000 _ rfl,
   c7_ldro_and_bandwidth_frequency.2.1 ._12 ._125KHz ._4_5 915000000 _ 12 rfl rfl,
   c7_ldro_and_bandwidth_frequency.2.2.1 ._7 ._250KHz ._4_8 300000000
     (Or.inl rfl) (by norm_num),
   c7_ldro_and_bandwidth_frequency.2.2.2 ._7 ._500KHz ._4_5 399999999 7 rfl
     (Or.inr rfl) (by norm_num)⟩

/-- C1 (counterexample): the spec's successful-send scenario — initialize
with public-network=true over a fake chip whose operations all succeed
and whose interrupt interpretation reports completion on the first poll,
then prepare-for-send, then send a 64-byte payload with a 1000 ms
timeout.  The send returns `Ok`, but the orchestrator's tracked radio
mode is `Transmit`, not `Standby`, when it returns: the success path of
`tx` never restores `Standby`. -/
theorem c1_counterexample :
    (LoRa.new okChip () true).1 = .ok () ∧
    (LoRa.prepareForTx okChip scenarioMp 14 false
      (LoRa.new okChip () true).2.1).1 = .ok () ∧
    c1TxRun.1 = .ok () ∧
    c1TxRun.2.1.radioMode = .Transmit ∧
    c1TxRun.2.1.radioMode ≠ .Standby :=
  ⟨rfl, rfl, rfl, rfl, by decide⟩

/-- C3 (counterexample): after a successful initialize-and-send at
915 MHz (which performs image calibration and leaves the calibration
cache valid), a receive preparation at the distinct frequency 868 MHz
succeeds without ever calling `calibrate_image`: a new channel frequency
does not trigger recalibration while the single cached boolean is set. -/
theorem c3_counterexample :
    c1TxRun.1 = .ok () ∧
    c1TxRun.2.1.imageCalibrated = true ∧
    ChipOp.calibrateImage ∈ c1TxRun.2.2 ∧
    scenarioMp2.frequencyInHz ≠ scenarioMp.frequencyInHz ∧
    c3SecondPrepRun.1 = .ok () ∧
    ChipOp.calibrateImage ∉ c3SecondPrepRun.2.2 :=
  ⟨rfl, rfl, by decide, by decide, rfl, by decide⟩

end Lora
